import Mathlib

/-!
Shallow embedding of the LangGraph customer-support agent
(`src/agent/state_manager.py`, `src/mcp/mcp_client.py` and the stage
executors `stage_01_intake.py`, `stage_05_wait.py`, `stage_07_decide.py`,
`stage_08_update.py`), together with theorems settling the frozen claims
about the workflow state machine.

Python runtime values that flow through the state dictionaries are
modelled by `PyVal`.  Machine floats appear in the source only as opaque
payload literals that are never computed with on the verified paths, so
they are carried as `PyVal.flt` with their literal text.  Mutable list
objects that are shared between state versions (`execution_log`,
`errors`) are modelled as references into heaps held by the
`StateManager`, which is what makes the shallow-copy aliasing of
`update_state` expressible.
-/

set_option maxHeartbeats 1000000

namespace Support

/-- Model of the Python values stored in payloads, state fields and MCP
response data.  `flt` carries the literal text of a float constant; the
verified code paths never do arithmetic on floats. -/
inductive PyVal where
  | none : PyVal
  | bool (b : Bool) : PyVal
  | int (n : Int) : PyVal
  | flt (lit : String) : PyVal
  | str (s : String) : PyVal
  | list (xs : List PyVal) : PyVal
  | dict (kvs : List (String × PyVal)) : PyVal

namespace PyVal

/-- Python truthiness (`bool(v)`), on the value shapes the program uses.
A float literal is truthy unless it denotes zero; the program never
branches on a zero float. -/
def truthy : PyVal → Bool
  | .none => false
  | .bool b => b
  | .int n => n != 0
  | .flt l => l != "0.0"
  | .str s => s != ""
  | .list xs => !xs.isEmpty
  | .dict kvs => !kvs.isEmpty

/-- Association-list lookup for dict values (`d[k]` / `k in d`): first
binding of the key wins, mirroring unique Python dict keys. -/
def lookup (k : String) : List (String × PyVal) → Option PyVal
  | [] => Option.none
  | (k', v) :: rest => if k' = k then some v else lookup k rest

/-- `v.get(k)` on a dict: `some` when the key is present.  On non-dict
values the source would raise `AttributeError`; those shapes are ruled
out by the hypotheses of the theorems below, and the model returns
`none` there. -/
def get : PyVal → String → Option PyVal
  | .dict kvs, k => lookup k kvs
  | _, _ => Option.none

/-- `v.get(k, d)`: lookup with default. -/
def getD (v : PyVal) (k : String) (d : PyVal) : PyVal :=
  (v.get k).getD d

/-- Replace-or-append assignment `d[k] = v` on an association list. -/
def setKey (k : String) (v : PyVal) : List (String × PyVal) → List (String × PyVal)
  | [] => [(k, v)]
  | (k', v') :: rest =>
      if k' = k then (k, v) :: rest else (k', v') :: setKey k v rest

/-- `str(v)` as used in f-string interpolation of the values the program
actually formats (strings interpolate without quotes). -/
def pystr : PyVal → String
  | .none => "None"
  | .bool true => "True"
  | .bool false => "False"
  | .int n => toString n
  | .flt l => l
  | .str s => s
  | .list _ => "[...]"
  | .dict _ => "{...}"

end PyVal

/-! ## MCP client (`src/mcp/mcp_client.py`) -/

/-- `MCPServerType`: the two backends. -/
inductive MCPServerType where
  | ATLAS : MCPServerType
  | COMMON : MCPServerType
deriving DecidableEq, Repr

/-- `MCPResponse` pydantic model.  `server_type` is declared without a
default and without `Optional`, so it is a required field: pydantic
rejects `None` for it (see `MCPResponse.validate`). -/
structure MCPResponse where
  success : Bool
  data : Option PyVal := Option.none
  error : Option String := Option.none
  execution_time_ms : Option Int := Option.none
  server_type : MCPServerType

/-- Constructing an `MCPResponse(...)`: pydantic validates the field
values against the model.  Passing `server_type=None` for the required
non-optional `server_type: MCPServerType` field raises a
`ValidationError`, modelled as `Except.error`. -/
def MCPResponse.validate (success : Bool) (data : Option PyVal)
    (error : Option String) (execution_time_ms : Option Int)
    (server_type : Option MCPServerType) : Except String MCPResponse :=
  match server_type with
  | Option.none =>
      .error "ValidationError: server_type none is not an allowed value"
  | some st =>
      .ok { success := success, data := data, error := error,
            execution_time_ms := execution_time_ms, server_type := st }

/-- `MCPClient.server_mapping`: the fifteen-entry routing table. -/
def server_mapping : List (String × MCPServerType) :=
  [ ("extract_entities", .ATLAS),
    ("enrich_records", .ATLAS),
    ("clarify_question", .ATLAS),
    ("extract_answer", .ATLAS),
    ("knowledge_base_search", .ATLAS),
    ("escalation_decision", .ATLAS),
    ("update_ticket", .ATLAS),
    ("close_ticket", .ATLAS),
    ("execute_api_calls", .ATLAS),
    ("trigger_notifications", .ATLAS),
    ("parse_request_text", .COMMON),
    ("normalize_fields", .COMMON),
    ("add_flags_calculations", .COMMON),
    ("solution_evaluation", .COMMON),
    ("response_generation", .COMMON) ]

/-- `self.server_mapping.get(ability_name)`. -/
def lookupServer (ability : String) : Option MCPServerType :=
  (server_mapping.lookup ability)

/-- The behaviour of a backend: what data the server returns for an
ability invocation.  The source's `_simulate_atlas_response` /
`_simulate_common_response` are one concrete instance
(`simulateServer`); the decision-logic theorems quantify over it, since
the stages only ever see the returned data. -/
def ServerData : Type :=
  MCPServerType → String → PyVal → PyVal → PyVal

/-- `MCPClient.execute_ability`: route by the table.  An unknown ability
name attempts `MCPResponse(success=False, error=..., server_type=None)`,
which fails pydantic validation (`MCPResponse.validate`).  A known
ability is dispatched to its server; `_call_atlas_server` /
`_call_common_server` wrap the simulated data in a successful envelope
(the simulation itself does not raise). -/
def execute_ability (sd : ServerData) (ability : String)
    (parameters context : PyVal) (session_id : String) :
    Except String MCPResponse :=
  match lookupServer ability with
  | Option.none =>
      MCPResponse.validate false Option.none
        (some ("Unknown ability: " ++ ability)) Option.none Option.none
  | some st =>
      .ok { success := true,
            data := some (sd st ability parameters context),
            error := Option.none,
            execution_time_ms := some 0,
            server_type := st }

/-! ## State manager (`src/agent/state_manager.py`) -/

/-- `StageStatus` enum. -/
inductive StageStatus where
  | PENDING | IN_PROGRESS | COMPLETED | FAILED | SKIPPED
deriving DecidableEq, Repr

/-- `ExecutionLog` pydantic model (one stage-execution attempt). -/
structure ExecutionLog where
  stage_id : Nat
  stage_name : String
  timestamp : Nat
  status : StageStatus
  abilities_executed : List String
  server_used : Option String := Option.none
  duration_ms : Option Int := Option.none
  error_message : Option String := Option.none
  output : Option PyVal := Option.none

/-- A value slot of the `AgentState` dict.  The `execution_log` and
`errors` slots hold mutable Python list objects; a shallow `dict.copy()`
copies the reference, not the list, so they are modelled as references
into heaps owned by the `StateManager`. -/
inductive StateVal where
  | py (v : PyVal) : StateVal
  | logRef (r : Nat) : StateVal
  | errsRef (r : Nat) : StateVal

/-- The runtime representation of one `AgentState` version: the
key-ordered dict built by `create_initial_state`. -/
abbrev PyState := List (String × StateVal)

namespace PyState

/-- Dict lookup on a state version. -/
def lookup (k : String) : PyState → Option StateVal
  | [] => Option.none
  | (k', v) :: rest => if k' = k then some v else lookup k rest

/-- `key in current_state`. -/
def hasKey (k : String) (st : PyState) : Bool :=
  (lookup k st).isSome

/-- `current_state[key] = value` for a key already checked to exist
(assignment never adds keys on the `update_state` path). -/
def set (k : String) (v : StateVal) : PyState → PyState
  | [] => []
  | (k', v') :: rest =>
      if k' = k then (k, v) :: rest else (k', v') :: set k v rest

end PyState

/-- The in-memory store: `_state_history` plus the heaps backing the
shared mutable `execution_log` / `errors` list objects.  `uuidCounter`
stands in for `uuid.uuid4()` as a source of session identifiers. -/
structure StateManager where
  histories : List (String × List PyState)
  logHeap : List (List ExecutionLog)
  errHeap : List (List String)
  uuidCounter : Nat

namespace StateManager

/-- Lookup of a session's version list. -/
def histLookup (sid : String) : List (String × List PyState) → Option (List PyState)
  | [] => Option.none
  | (k, h) :: rest => if k = sid then some h else histLookup sid rest

/-- `self._state_history[session_id] = versions`. -/
def histSet (sid : String) (h : List PyState) :
    List (String × List PyState) → List (String × List PyState)
  | [] => [(sid, h)]
  | (k, h') :: rest =>
      if k = sid then (sid, h) :: rest else (k, h') :: histSet sid h rest

/-- In-place `list.append` on a heap cell. -/
def appendAt (heap : List (List α)) (r : Nat) (x : α) : List (List α) :=
  heap.set r (heap.getD r [] ++ [x])

/-- The session id `create_initial_state` will mint from this manager
(model of `str(uuid.uuid4())`). -/
def freshSessionId (m : StateManager) : String :=
  "session-" ++ toString m.uuidCounter

/-- `StateManager.create_initial_state`: builds the initial
`AgentState` dict in source order, generates a ticket id when the given
one is falsy (`if not ticket_id`), allocates the session's
`execution_log` / `errors` list objects, and stores the dict as
version 0 of the session history. -/
def create_initial_state (m : StateManager) (customer_name email query priority ticket_id : PyVal)
    (now : Nat) : PyState × StateManager :=
  let session_id := m.freshSessionId
  let tid : PyVal :=
    if ticket_id.truthy then ticket_id
    else .str ("TKT-" ++ toString now ++ "-" ++ String.mk (session_id.data.take 8))
  let lr := m.logHeap.length
  let er := m.errHeap.length
  let st : PyState :=
    [ ("customer_name", .py customer_name),
      ("email", .py email),
      ("query", .py query),
      ("priority", .py priority),
      ("ticket_id", .py tid),
      ("parsed_request", .py .none),
      ("extracted_entities", .py .none),
      ("normalized_fields", .py .none),
      ("enriched_records", .py .none),
      ("calculated_flags", .py .none),
      ("clarification_needed", .py .none),
      ("questions_asked", .py .none),
      ("customer_responses", .py .none),
      ("knowledge_base_results", .py .none),
      ("retrieved_solutions", .py .none),
      ("solution_scores", .py .none),
      ("escalation_decision", .py .none),
      ("selected_solution", .py .none),
      ("decision_reasoning", .py .none),
      ("ticket_updates", .py .none),
      ("ticket_status", .py (.str "open")),
      ("generated_response", .py .none),
      ("api_calls_executed", .py .none),
      ("notifications_sent", .py .none),
      ("final_payload", .py .none),
      ("session_id", .py (.str session_id)),
      ("current_stage", .py (.str "INTAKE")),
      ("execution_log", .logRef lr),
      ("created_at", .py (.int now)),
      ("updated_at", .py (.int now)),
      ("errors", .errsRef er) ]
  (st,
   { histories := histSet session_id [st] m.histories,
     logHeap := m.logHeap ++ [[]],
     errHeap := m.errHeap ++ [[]],
     uuidCounter := m.uuidCounter + 1 })

/-- The update loop of `update_state`: a known key is overwritten; an
unknown key appends a diagnostic to the `errors` list object shared by
all versions (`current_state.setdefault("errors", []).append(...)`) and
is otherwise dropped. -/
def applyUpdates (stage_name : String) :
    PyState → List (List String) → List (String × PyVal) → PyState × List (List String)
  | st, eh, [] => (st, eh)
  | st, eh, (k, v) :: rest =>
      if st.hasKey k then
        applyUpdates stage_name (st.set k (.py v)) eh rest
      else
        let eh' :=
          match st.lookup "errors" with
          | some (.errsRef e) =>
              appendAt eh e ("Unknown state key: " ++ k ++ " from stage " ++ stage_name)
          | _ => eh
        applyUpdates stage_name st eh' rest

/-- `StateManager.update_state`: raises for an unknown session, shallow-
copies the latest version, applies the updates, stamps `current_stage`
and `updated_at`, and appends the new version to the history. -/
def update_state (m : StateManager) (session_id : String)
    (updates : List (String × PyVal)) (stage_name : String) (now : Nat) :
    Except String (PyState × StateManager) :=
  match histLookup session_id m.histories with
  | Option.none => .error ("Session ID " ++ session_id ++ " not found")
  | some hist =>
    match hist.getLast? with
    | Option.none => .error "IndexError: list index out of range"
    | some cur =>
      let (st, eh) := applyUpdates stage_name cur m.errHeap updates
      let st := st.set "current_stage" (.py (.str stage_name))
      let st := st.set "updated_at" (.py (.int now))
      .ok (st,
        { m with histories := histSet session_id (hist ++ [st]) m.histories,
                 errHeap := eh })

/-- `StateManager.get_current_state`: latest version or raise. -/
def get_current_state (m : StateManager) (session_id : String) :
    Except String PyState :=
  match histLookup session_id m.histories with
  | Option.none => .error ("Session ID " ++ session_id ++ " not found")
  | some hist =>
    match hist.getLast? with
    | Option.none => .error "IndexError: list index out of range"
    | some cur => .ok cur

/-- `StateManager.get_state_history`: `self._state_history.get(session_id, [])`. -/
def get_state_history (m : StateManager) (session_id : String) : List PyState :=
  (histLookup session_id m.histories).getD []

/-- `StateManager.log_stage_execution`: raises for an unknown session;
otherwise appends the entry to the latest version's `execution_log`
list object in place, and, when an error message is given, also appends
to the shared `errors` list. -/
def log_stage_execution (m : StateManager) (session_id : String)
    (stage_id : Nat) (stage_name : String) (status : StageStatus)
    (abilities_executed : List String) (server_used : Option String)
    (duration_ms : Option Int) (error_message : Option String)
    (output : Option PyVal) (now : Nat) : Except String StateManager :=
  match histLookup session_id m.histories with
  | Option.none => .error ("Session ID " ++ session_id ++ " not found")
  | some hist =>
    match hist.getLast? with
    | Option.none => .error "IndexError: list index out of range"
    | some cur =>
      let entry : ExecutionLog :=
        { stage_id := stage_id, stage_name := stage_name, timestamp := now,
          status := status, abilities_executed := abilities_executed,
          server_used := server_used, duration_ms := duration_ms,
          error_message := error_message, output := output }
      let lh :=
        match cur.lookup "execution_log" with
        | some (.logRef r) => appendAt m.logHeap r entry
        | _ => m.logHeap
      let eh :=
        match error_message, cur.lookup "errors" with
        | some msg, some (.errsRef e) =>
            appendAt m.errHeap e (stage_name ++ ": " ++ msg)
        | _, _ => m.errHeap
      .ok { m with logHeap := lh, errHeap := eh }

/-- Dereference a version's `execution_log` list object. -/
def viewLog (m : StateManager) (st : PyState) : List ExecutionLog :=
  match st.lookup "execution_log" with
  | some (.logRef r) => m.logHeap.getD r []
  | _ => []

/-- Dereference a version's `errors` list object. -/
def viewErrors (m : StateManager) (st : PyState) : List String :=
  match st.lookup "errors" with
  | some (.errsRef e) => m.errHeap.getD e []
  | _ => []

end StateManager

/-! ## Shared stage plumbing -/

/-- `state.get(key, default)` on an `AgentState` dict: all stage-read
keys hold plain Python values (`.py`). -/
def PyState.getPy (st : PyState) (k : String) (d : PyVal) : PyVal :=
  match st.lookup k with
  | some (.py v) => v
  | _ => d

/-- `v.get(k, d)` where `v` must itself support `.get`: raises
`AttributeError` (modelled as `Except.error`) when `v` is not a dict,
e.g. the chained `state.get("enriched_records", {}).get(...)` when the
upstream stage left the field as `None`. -/
def PyVal.getE (v : PyVal) (k : String) (d : PyVal) : Except String PyVal :=
  match v with
  | .dict kvs => .ok ((PyVal.lookup k kvs).getD d)
  | _ => .error "AttributeError: NoneType object has no attribute get"

/-- `v.get(k, d)` with a Python value as key (`solution_scores.get(
solution_id, {})`): on a dict, only string keys can match; raises on a
non-dict receiver. -/
def PyVal.getKeyE (v : PyVal) (k : PyVal) (d : PyVal) : Except String PyVal :=
  match v with
  | .dict kvs =>
      .ok (match k with
           | .str s => (PyVal.lookup s kvs).getD d
           | _ => d)
  | _ => .error "AttributeError: NoneType object has no attribute get"

/-- Numeric value of a score for Python `<`/`>=` comparisons: the
scores the program compares are ints (bools compare as 0/1) or the
float literal `0.0` that `_find_best_solution` starts from; anything
else raises `TypeError` (`Option.none`). -/
def scoreVal : PyVal → Option Int
  | .int n => some n
  | .bool b => some (if b then 1 else 0)
  | .flt l => if l = "0.0" then some 0 else Option.none
  | _ => Option.none

/-- The common `except Exception` tail of a stage's `execute`: log a
FAILED entry (with the abilities executed so far) and re-raise.  If
`log_stage_execution` itself raises inside the handler, that exception
propagates instead. -/
def stageFail (m : StateManager) (session_id : String) (stage_id : Nat)
    (stage_name : String) (abilities : List String) (e : String) (now : Nat) :
    (Except String PyState) × StateManager :=
  match m.log_stage_execution session_id stage_id stage_name .FAILED abilities
      Option.none (some 0) (some e) Option.none now with
  | .ok m' => (.error e, m')
  | .error e2 => (.error e2, m)

/-- `UPDATE` and `WAIT` reference `abilities_executed` in their
`except` blocks unconditionally; a failure raised before that local is
assigned turns into a `NameError` inside the handler, which propagates
with no FAILED log entry. -/
def nameErrorAbilities : String :=
  "NameError: name abilities_executed is not defined"

/-! ## Stage 7: DECIDE (`src/stages/stage_07_decide.py`) -/

namespace Decide

/-- `DecideStage.escalation_threshold`: score below this triggers
escalation. -/
def escalation_threshold : Int := 90

/-- `DecideStage._evaluate_solutions`: build the scoring context and
call the COMMON server's `solution_evaluation` ability. -/
def evaluate_solutions (sd : ServerData) (st : PyState) (session_id : String) :
    Except String PyVal := do
  let tier ← (st.getPy "enriched_records" (.dict [])).getE "customer_tier" (.str "standard")
  let context : PyVal := .dict
    [ ("retrieved_solutions", st.getPy "retrieved_solutions" (.list [])),
      ("customer_tier", tier),
      ("priority", st.getPy "priority" .none),
      ("extracted_entities", st.getPy "extracted_entities" (.dict [])),
      ("customer_history", st.getPy "enriched_records" (.dict [])) ]
  let parameters : PyVal := .dict
    [ ("scoring_method", .str "weighted_average"),
      ("criteria", .list [.str "relevance", .str "complexity",
                          .str "success_rate", .str "customer_satisfaction"]) ]
  match execute_ability sd "solution_evaluation" parameters context session_id with
  | .error e => .error e
  | .ok resp =>
      if resp.success then .ok (resp.data.getD .none)
      else .error ("Failed to evaluate solutions: " ++ resp.error.getD "None")

/-- `DecideStage._make_escalation_decision`: build the escalation
context and call the ATLAS server's `escalation_decision` ability. -/
def make_escalation_decision (sd : ServerData) (st : PyState)
    (solution_evaluation best_score : PyVal) (session_id : String) :
    Except String PyVal := do
  let tier ← (st.getPy "enriched_records" (.dict [])).getE "customer_tier" (.str "standard")
  let sla ← (st.getPy "calculated_flags" (.dict [])).getE "sla_risk_score" (.int 50)
  let csr ← (st.getPy "calculated_flags" (.dict [])).getE "customer_satisfaction_risk" (.str "medium")
  let context : PyVal := .dict
    [ ("solution_scores", solution_evaluation),
      ("best_score", best_score),
      ("escalation_threshold", .int escalation_threshold),
      ("customer_tier", tier),
      ("priority", st.getPy "priority" .none),
      ("sla_risk", sla),
      ("customer_satisfaction_risk", csr) ]
  let parameters : PyVal := .dict
    [ ("solution_score", best_score),
      ("threshold", .int escalation_threshold) ]
  match execute_ability sd "escalation_decision" parameters context session_id with
  | .error e => .error e
  | .ok resp =>
      if resp.success then .ok (resp.data.getD .none)
      else .error ("Failed to make escalation decision: " ++ resp.error.getD "None")

/-- One iteration of `_find_best_solution`'s loop: keep the running
`(best_solution_id, best_score)` pair unless this solution's
`overall_score` exceeds it. -/
def score_step (acc : PyVal × PyVal) (kv : String × PyVal) :
    Except String (PyVal × PyVal) :=
  match (kv.2).getE "overall_score" (.int 0) with
  | .error e => .error e
  | .ok overall_score =>
    match scoreVal overall_score, scoreVal acc.2 with
    | some ov, some bv =>
        if ov > bv then .ok (PyVal.str kv.1, overall_score) else .ok acc
    | _, _ => .error "TypeError: unsupported comparison"

/-- `DecideStage._find_best_solution`: scan `solution_scores` for the
highest `overall_score` (starting from the float `0.0`), then prefer
the evaluation's `recommended_solution` id whenever it is truthy and
present among the scores, and package the result dict. -/
def find_best_solution (solution_evaluation : PyVal) :
    Except String (PyVal × PyVal) := do
  let solution_scores ← solution_evaluation.getE "solution_scores" (.dict [])
  if ¬ solution_scores.truthy then
    .ok (.dict [], .flt "0.0")
  else do
    let items ←
      match solution_scores with
      | .dict kvs => Except.ok kvs
      | _ => Except.error "AttributeError: object has no attribute items"
    let best ← items.foldlM score_step ((PyVal.none, PyVal.flt "0.0"))
    let best ←
      match solution_evaluation.getD "recommended_solution" .none with
      | .str r =>
          if (PyVal.str r).truthy then
            match PyVal.lookup r items with
            | some scores =>
                (match scores.get "overall_score" with
                 | some ov => Except.ok (PyVal.str r, ov)
                 | Option.none => Except.error "KeyError: overall_score")
            | Option.none => Except.ok best
          else Except.ok best
      | _ => Except.ok best
    let details :=
      match best.1 with
      | .str s => solution_scores.getD s (.dict [])
      | _ => .dict []
    let best_solution : PyVal := .dict
      [ ("solution_id", best.1),
        ("score", best.2),
        ("details", details) ]
    .ok (best_solution, best.2)

/-- The body of `DecideStage.execute` between the prerequisite check
and the state write: returns the `results` update dict and the
`abilities_executed` list, or the raised error together with the
abilities executed up to that point. -/
def decide_body (sd : ServerData) (st : PyState) (session_id : String) (now : Nat) :
    Except (String × List String) (List (String × PyVal) × List String) :=
  match evaluate_solutions sd st session_id with
  | .error e => .error (e, [])
  | .ok solution_evaluation =>
    match find_best_solution solution_evaluation with
    | .error e => .error (e, ["solution_evaluation"])
    | .ok (best_solution, best_score) =>
      match scoreVal best_score with
      | Option.none => .error ("TypeError: unsupported comparison", ["solution_evaluation"])
      | some bs =>
        let branch : Except (String × List String) (List (String × PyVal) × List String) :=
          if bs < escalation_threshold then
            match make_escalation_decision sd st solution_evaluation best_score session_id with
            | .error e => .error (e, ["solution_evaluation"])
            | .ok escalation_result =>
                .ok ([ ("solution_scores", solution_evaluation),
                       ("escalation_decision", .bool true),
                       ("escalation_details", escalation_result),
                       ("selected_solution", .none),
                       ("decision_reasoning",
                         .str ("Escalated due to low solution score (" ++ best_score.pystr ++ ")")) ],
                     ["solution_evaluation", "escalation_decision"])
          else
            .ok ([ ("solution_scores", solution_evaluation),
                   ("escalation_decision", .bool false),
                   ("selected_solution", best_solution),
                   ("decision_reasoning",
                     .str ("Auto-resolved with solution score " ++ best_score.pystr)) ],
                 ["solution_evaluation"])
        match branch with
        | .error ea => .error ea
        | .ok (results, abilities) =>
          match solution_evaluation.getE "confidence" (.flt "0.5") with
          | .error e => .error (e, abilities)
          | .ok confidence =>
              .ok (results ++
                     [ ("decision_timestamp", .str (toString now)),
                       ("decision_confidence", confidence) ],
                   abilities ++ ["update_payload"])

/-- `DecideStage.execute`: prerequisite check, the decision body, the
state write and the COMPLETED log entry; any exception is logged as
FAILED with the abilities executed so far and re-raised (the stage's
handler guards `abilities_executed` with a `locals()` check, so this
holds from the first line on). -/
def execute (sd : ServerData) (m : StateManager) (session_id : String) (now : Nat) :
    (Except String PyState) × StateManager :=
  match m.get_current_state session_id with
  | .error e => stageFail m session_id 7 "DECIDE" [] e now
  | .ok current_state =>
    if ¬ (current_state.getPy "retrieved_solutions" .none).truthy then
      stageFail m session_id 7 "DECIDE" [] "No solutions found to evaluate" now
    else
      match decide_body sd current_state session_id now with
      | .error (e, abilities) => stageFail m session_id 7 "DECIDE" abilities e now
      | .ok (results, abilities) =>
        match m.update_state session_id results "DECIDE" now with
        | .error e => stageFail m session_id 7 "DECIDE" abilities e now
        | .ok (updated_state, m1) =>
          match m1.log_stage_execution session_id 7 "DECIDE" .COMPLETED abilities
              (some "COMMON,ATLAS") (some 0) Option.none (some (.dict results)) now with
          | .ok m2 => (.ok updated_state, m2)
          | .error e => stageFail m1 session_id 7 "DECIDE" abilities e now

end Decide

/-! ## Further Python operations used by stages 1, 5 and 8 -/

/-- `len(v)` on the sized values the program measures; `len` of a
non-sized value raises in Python and does not occur on the verified
paths. -/
def pyLen : PyVal → Nat
  | .str s => s.length
  | .list xs => xs.length
  | .dict kvs => kvs.length
  | _ => 0

/-- `s.lower()`. -/
def strLower (s : String) : String := String.mk (s.data.map Char.toLower)

/-- Substring containment `sub in s`. -/
def strIn (sub s : String) : Bool :=
  s.data.tails.any (fun t => sub.data.isPrefixOf t)

/-- `k in v` for the containment checks the stages perform (`"sla_targets"
in calculated_flags`, `"steps" in selected_solution`): key membership on
a dict, element membership on a list, substring on a string; raises
`TypeError` on `None`. -/
def pyContainsKey (v : PyVal) (k : String) : Except String Bool :=
  match v with
  | .dict kvs => .ok ((PyVal.lookup k kvs).isSome)
  | .list xs => .ok (xs.any (fun x => match x with | .str s => s = k | _ => false))
  | .str s => .ok (strIn k s)
  | _ => .error "TypeError: argument of type NoneType is not iterable"

/-- Subscription `v[k]`: `KeyError` when the key is missing,
`TypeError` when the receiver is not a dict. -/
def PyVal.indexE (v : PyVal) (k : String) : Except String PyVal :=
  match v with
  | .dict kvs =>
      match PyVal.lookup k kvs with
      | some x => .ok x
      | Option.none => .error ("KeyError: " ++ k)
  | _ => .error "TypeError: object is not subscriptable"

/-- `parameters["fields_to_update"].extend(items)`: in-place extension
of the list stored under `k` (always present as a list here). -/
def extendField (params : List (String × PyVal)) (k : String) (items : List PyVal) :
    List (String × PyVal) :=
  match PyVal.lookup k params with
  | some (.list xs) => PyVal.setKey k (.list (xs ++ items)) params
  | _ => params

/-! ## Stage 8: UPDATE (`src/stages/stage_08_update.py`) -/

namespace Update

/-- `UpdateStage._should_close_ticket`: never close when escalated;
close when there is a truthy `selected_solution` whose `id` is truthy
and whose record in `solution_scores` carries `overall_score >= 85`. -/
def should_close_ticket (st : PyState) : Except String Bool :=
  if (st.getPy "escalation_decision" (.bool false)).truthy then .ok false
  else
    let selected_solution := st.getPy "selected_solution" .none
    if selected_solution.truthy then do
      let solution_scores := st.getPy "solution_scores" (.dict [])
      let solution_id ← selected_solution.getE "id" .none
      if solution_id.truthy then do
        let recd ← solution_scores.getKeyE solution_id (.dict [])
        let ov ← recd.getE "overall_score" (.int 0)
        match scoreVal ov with
        | some v => .ok (decide (85 ≤ v))
        | Option.none => .error "TypeError: unsupported comparison"
      else .ok false
    else .ok false

/-- `UpdateStage._prepare_update_parameters`. -/
def prepare_update_parameters (st : PyState) : Except String PyVal := do
  let params : List (String × PyVal) := [("fields_to_update", .list [])]
  let params :=
    if (st.getPy "escalation_decision" (.bool false)).truthy then
      let params := PyVal.setKey "new_status" (.str "escalated") params
      let params := PyVal.setKey "assigned_agent" (.str "human_agent") params
      let params := PyVal.setKey "priority" (.str "high") params
      extendField params "fields_to_update"
        [.str "new_status", .str "assigned_agent", .str "priority"]
    else
      let params := PyVal.setKey "new_status" (.str "in_progress") params
      extendField params "fields_to_update" [.str "new_status"]
  let selected_solution := st.getPy "selected_solution" .none
  let params ←
    if selected_solution.truthy then do
      let title ← selected_solution.getE "title" .none
      let ert ← selected_solution.getE "estimated_resolution_time" .none
      let params := PyVal.setKey "resolution_approach" title params
      let params := PyVal.setKey "estimated_resolution_time" ert params
      pure (extendField params "fields_to_update"
        [.str "resolution_approach", .str "estimated_resolution_time"])
    else pure params
  let calculated_flags := st.getPy "calculated_flags" (.dict [])
  let hasSla ← pyContainsKey calculated_flags "sla_targets"
  let params ←
    if hasSla then do
      let targets ← calculated_flags.indexE "sla_targets"
      let resolution ← targets.indexE "resolution"
      let params := PyVal.setKey "sla_target" resolution params
      pure (extendField params "fields_to_update" [.str "sla_target"])
    else pure params
  pure (.dict params)

/-- `UpdateStage._update_ticket`: build the ticket context and
parameters and call the ATLAS server's `update_ticket` ability. -/
def update_ticket (sd : ServerData) (st : PyState) (session_id : String) :
    Except String PyVal := do
  let context : PyVal := .dict
    [ ("ticket_id", st.getPy "ticket_id" .none),
      ("customer_name", st.getPy "customer_name" .none),
      ("escalation_decision", st.getPy "escalation_decision" .none),
      ("selected_solution", st.getPy "selected_solution" .none),
      ("decision_reasoning", st.getPy "decision_reasoning" .none),
      ("solution_scores", st.getPy "solution_scores" .none),
      ("enriched_records", st.getPy "enriched_records" .none),
      ("calculated_flags", st.getPy "calculated_flags" .none) ]
  let parameters ← prepare_update_parameters st
  match execute_ability sd "update_ticket" parameters context session_id with
  | .error e => .error e
  | .ok resp =>
      if resp.success then .ok (resp.data.getD .none)
      else .error ("Failed to update ticket: " ++ resp.error.getD "None")

/-- `UpdateStage._determine_resolution_code`: keyword match on the
lower-cased solution title. -/
def determine_resolution_code (st : PyState) : Except String String := do
  let selected_solution := st.getPy "selected_solution" (.dict [])
  let titleV ← selected_solution.getE "title" (.str "")
  let solution_title ←
    match titleV with
    | .str s => Except.ok (strLower s)
    | _ => Except.error "AttributeError: object has no attribute lower"
  if strIn "billing" solution_title || strIn "payment" solution_title then
    pure "resolved_billing_issue"
  else if strIn "account" solution_title || strIn "login" solution_title then
    pure "resolved_account_issue"
  else if strIn "technical" solution_title || strIn "bug" solution_title then
    pure "resolved_technical_issue"
  else
    pure "resolved_general_inquiry"

/-- `UpdateStage._generate_resolution_summary`. -/
def generate_resolution_summary (st : PyState) : Except String String := do
  let selected_solution := st.getPy "selected_solution" (.dict [])
  let customer_name := st.getPy "customer_name" (.str "Customer")
  let title ← selected_solution.getE "title" (.str "Standard Resolution")
  let summary := "Issue resolved for " ++ customer_name.pystr ++
    " using solution: " ++ title.pystr ++ ". "
  let hasSteps ← pyContainsKey selected_solution "steps"
  let summary ←
    if hasSteps then do
      let steps ← selected_solution.indexE "steps"
      pure (summary ++ "Resolution involved " ++ toString (pyLen steps) ++ " steps. ")
    else pure summary
  let decision_reasoning := st.getPy "decision_reasoning" .none
  let summary :=
    if decision_reasoning.truthy then
      summary ++ "Decision rationale: " ++ decision_reasoning.pystr
    else summary
  pure summary

/-- `UpdateStage._close_ticket`: build the closure context and
parameters and call the ATLAS server's `close_ticket` ability. -/
def close_ticket (sd : ServerData) (st : PyState) (session_id : String) :
    Except String PyVal := do
  let summary ← generate_resolution_summary st
  let context : PyVal := .dict
    [ ("ticket_id", st.getPy "ticket_id" .none),
      ("customer_name", st.getPy "customer_name" .none),
      ("selected_solution", st.getPy "selected_solution" .none),
      ("resolution_summary", .str summary) ]
  let code ← determine_resolution_code st
  let parameters : PyVal := .dict
    [ ("resolution_code", .str code),
      ("customer_satisfaction_survey", .bool true),
      ("follow_up_required", .bool false) ]
  match execute_ability sd "close_ticket" parameters context session_id with
  | .error e => .error e
  | .ok resp =>
      if resp.success then .ok (resp.data.getD .none)
      else .error ("Failed to close ticket: " ++ resp.error.getD "None")

/-- The ability sequence of `UpdateStage.execute`: `update_ticket`,
then conditionally `close_ticket`; returns the `results` update dict
and the abilities executed, or the raised error with the abilities
executed up to that point. -/
def update_body (sd : ServerData) (st : PyState) (session_id : String) :
    Except (String × List String) (List (String × PyVal) × List String) :=
  match update_ticket sd st session_id with
  | .error e => .error (e, [])
  | .ok update_result =>
    match should_close_ticket st with
    | .error e => .error (e, ["update_ticket"])
    | .ok true =>
      match close_ticket sd st session_id with
      | .error e => .error (e, ["update_ticket"])
      | .ok _close_result =>
          .ok ([ ("ticket_updates", update_result),
                 ("ticket_status", .str "closed") ],
               ["update_ticket", "close_ticket"])
    | .ok false =>
      match update_result.getE "new_status" (.str "in_progress") with
      | .error e => .error (e, ["update_ticket"])
      | .ok new_status =>
          .ok ([ ("ticket_updates", update_result),
                 ("ticket_status", new_status) ],
               ["update_ticket"])

/-- `UpdateStage.execute`: prerequisite guard, the deterministic
ability sequence, the state write and the COMPLETED log entry.  A
failure before `abilities_executed` is assigned (unknown session or the
missing-decision guard) becomes a `NameError` inside the `except`
handler and propagates with no FAILED entry. -/
def execute (sd : ServerData) (m : StateManager) (session_id : String) (now : Nat) :
    (Except String PyState) × StateManager :=
  match m.get_current_state session_id with
  | .error _ => (.error nameErrorAbilities, m)
  | .ok current_state =>
    if ¬ (current_state.getPy "escalation_decision" .none).truthy &&
       ¬ (current_state.getPy "selected_solution" .none).truthy then
      (.error nameErrorAbilities, m)
    else
      match update_body sd current_state session_id with
      | .error (e, abilities) => stageFail m session_id 8 "UPDATE" abilities e now
      | .ok (results, abilities) =>
        match m.update_state session_id results "UPDATE" now with
        | .error e => stageFail m session_id 8 "UPDATE" abilities e now
        | .ok (updated_state, m1) =>
          match m1.log_stage_execution session_id 8 "UPDATE" .COMPLETED abilities
              (some "ATLAS") (some 0) Option.none (some (.dict results)) now with
          | .ok m2 => (.ok updated_state, m2)
          | .error e => stageFail m1 session_id 8 "UPDATE" abilities e now

end Update

/-! ## Stage 5: WAIT (`src/stages/stage_05_wait.py`) -/

namespace Wait

/-- `WaitStage._extract_answer`: build the answer-extraction context
and call the ATLAS server's `extract_answer` ability. -/
def extract_answer (sd : ServerData) (st : PyState) (customer_responses : PyVal)
    (session_id : String) : Except String PyVal :=
  let context : PyVal := .dict
    [ ("questions_asked", st.getPy "questions_asked" (.list [])),
      ("customer_responses", customer_responses),
      ("original_query", st.getPy "query" .none),
      ("customer_name", st.getPy "customer_name" .none) ]
  match execute_ability sd "extract_answer" (.dict []) context session_id with
  | .error e => .error e
  | .ok resp =>
      if resp.success then .ok (resp.data.getD .none)
      else .error ("Failed to extract customer answers: " ++ resp.error.getD "None")

/-- `WaitStage._store_answer`: package the extracted answers as the
stage's state updates (raises if the extracted data does not support
`.get`). -/
def store_answer (extracted_data : PyVal) (now : Nat) :
    Except String (List (String × PyVal)) := do
  let completeness ← extracted_data.getE "completeness" (.flt "1.0")
  pure
    [ ("customer_responses", extracted_data),
      ("waiting_for_response", .bool false),
      ("responses_received_at", .str (toString now)),
      ("response_completeness", completeness) ]

/-- `WaitStage.execute`: skip when no clarification was needed; with
clarification needed but no answer payload, write the waiting marker
updates and log IN_PROGRESS without completing; with an answer payload,
extract and store the answers and log COMPLETED.  A failure before
`abilities_executed` is assigned becomes a `NameError` in the handler
(no FAILED entry). -/
def execute (sd : ServerData) (m : StateManager) (session_id : String)
    (customer_responses : PyVal) (now : Nat) :
    (Except String PyState) × StateManager :=
  match m.get_current_state session_id with
  | .error _ => (.error nameErrorAbilities, m)
  | .ok current_state =>
    if ¬ (current_state.getPy "clarification_needed" (.bool false)).truthy then
      match m.log_stage_execution session_id 5 "WAIT" .SKIPPED []
          Option.none (some 0) Option.none
          (some (.dict [("reason", .str "No clarification needed")])) now with
      | .ok m1 => (.ok current_state, m1)
      | .error _ => (.error nameErrorAbilities, m)
    else if ¬ customer_responses.truthy then
      let results : List (String × PyVal) :=
        [ ("customer_responses", .none),
          ("waiting_for_response", .bool true),
          ("questions_sent_at", .str (toString now)) ]
      match m.update_state session_id results "WAIT" now with
      | .error _ => (.error nameErrorAbilities, m)
      | .ok (updated_state, m1) =>
        match m1.log_stage_execution session_id 5 "WAIT" .IN_PROGRESS []
            Option.none (some 0) Option.none
            (some (.dict [("status", .str "waiting_for_customer_response")])) now with
        | .ok m2 => (.ok updated_state, m2)
        | .error _ => (.error nameErrorAbilities, m1)
    else
      match extract_answer sd current_state customer_responses session_id with
      | .error e => stageFail m session_id 5 "WAIT" [] e now
      | .ok extract_result =>
       match store_answer extract_result now with
       | .error e => stageFail m session_id 5 "WAIT" ["extract_answer"] e now
       | .ok results =>
        match m.update_state session_id results "WAIT" now with
        | .error e => stageFail m session_id 5 "WAIT" ["extract_answer", "store_answer"] e now
        | .ok (updated_state, m1) =>
          match m1.log_stage_execution session_id 5 "WAIT" .COMPLETED
              ["extract_answer", "store_answer"] (some "ATLAS,STATE") (some 0)
              Option.none (some (.dict results)) now with
          | .ok m2 => (.ok updated_state, m2)
          | .error e => stageFail m1 session_id 5 "WAIT" ["extract_answer", "store_answer"] e now

/-- `WaitStage.is_waiting_for_response`: read the waiting flag off the
latest state, `False` on any failure. -/
def is_waiting_for_response (m : StateManager) (session_id : String) : Bool :=
  match m.get_current_state session_id with
  | .ok st => (st.getPy "waiting_for_response" (.bool false)).truthy
  | .error _ => false

end Wait

/-! ## Stage 1: INTAKE (`src/stages/stage_01_intake.py`) -/

namespace Intake

/-- `IntakeStage._validate_payload`: collect all violations — missing
or falsy required fields, non-string or blank required fields, an email
without `"@"`, an unknown priority, an over-long query.  The source
quotes the offending field/priority name in the message; the model
renders those two messages without the surrounding quote characters. -/
def validate_payload (payload : PyVal) : List String :=
  let errors : List String := []
  let errors := ["customer_name", "email", "query"].foldl
    (fun acc field =>
      let v := payload.getD field .none
      if ¬ v.truthy then acc ++ ["Missing required field: " ++ field]
      else
        match v with
        | .str s =>
            if ¬ s.data.any (fun c => !c.isWhitespace) then
              acc ++ ["Field " ++ field ++ " must be a non-empty string"]
            else acc
        | _ => acc ++ ["Field " ++ field ++ " must be a non-empty string"])
    errors
  let email := payload.getD "email" (.str "")
  let errors :=
    if email.truthy && !(match email with | .str s => s.data.contains '@' | _ => true) then
      errors ++ ["Invalid email format"]
    else errors
  let priority := payload.getD "priority" (.str "medium")
  let errors :=
    if priority.truthy &&
       !(match priority with
         | .str s => s = "low" || s = "medium" || s = "high" || s = "urgent"
         | _ => false) then
      errors ++ ["Invalid priority " ++ priority.pystr ++ ". Must be: low, medium, high, or urgent"]
    else errors
  let query := payload.getD "query" (.str "")
  if pyLen query > 5000 then errors ++ ["Query too long (max 5000 characters)"]
  else errors

/-- `IntakeStage.execute`: on validation failure the raised
`ValueError` is caught by the stage's own `except` block, which creates
a minimal error-tracking session (with fallback field values), logs a
FAILED entry, swallows the exception and falls off the end returning
`None`.  On success the validated fields seed the initial state and a
COMPLETED entry is logged. -/
def execute (m : StateManager) (payload : PyVal) (now : Nat) :
    Option PyState × StateManager :=
  let validation_errors := validate_payload payload
  if ¬ validation_errors.isEmpty then
    let error_msg := "Payload validation failed: " ++ String.intercalate "," validation_errors
    let (session_state, m1) := m.create_initial_state
      (payload.getD "customer_name" (.str "Unknown"))
      (payload.getD "email" (.str "unknown@example.com"))
      (payload.getD "query" (.str "Failed to process"))
      (.str "high")
      .none now
    let sid := (session_state.getPy "session_id" .none).pystr
    let m2 :=
      match m1.log_stage_execution sid 1 "INTAKE" .FAILED ["accept_payload"]
          Option.none (some 0) (some error_msg) Option.none now with
      | .ok m2 => m2
      | .error _ => m1
    (Option.none, m2)
  else
    let (initial_state, m1) := m.create_initial_state
      (payload.getD "customer_name" .none)
      (payload.getD "email" .none)
      (payload.getD "query" .none)
      (payload.getD "priority" (.str "medium"))
      (payload.getD "ticket_id" .none) now
    let sid := (initial_state.getPy "session_id" .none).pystr
    let output : PyVal := .dict
      [ ("ticket_id", initial_state.getPy "ticket_id" .none),
        ("session_id", initial_state.getPy "session_id" .none),
        ("validation_passed", .bool true) ]
    let m2 :=
      match m1.log_stage_execution sid 1 "INTAKE" .COMPLETED ["accept_payload"]
          Option.none (some 0) Option.none (some output) now with
      | .ok m2 => m2
      | .error _ => m1
    (some initial_state, m2)

end Intake

/-! ## Derived observations used by the theorems -/

namespace StateManager

/-- The keys of every `AgentState` dict built by `create_initial_state`,
in creation order. -/
def standardKeys : List String :=
  [ "customer_name", "email", "query", "priority", "ticket_id",
    "parsed_request", "extracted_entities", "normalized_fields",
    "enriched_records", "calculated_flags", "clarification_needed",
    "questions_asked", "customer_responses", "knowledge_base_results",
    "retrieved_solutions", "solution_scores", "escalation_decision",
    "selected_solution", "decision_reasoning", "ticket_updates",
    "ticket_status", "generated_response", "api_calls_executed",
    "notifications_sent", "final_payload", "session_id", "current_stage",
    "execution_log", "created_at", "updated_at", "errors" ]

/-- A finite sequence of `update_state` calls on one session: for each
call its field updates, stage name and timestamp.  A call that raises
leaves the store untouched (on a created session no call in the
sequence can raise). -/
def applyUpdateSeq (m : StateManager) (sid : String) :
    List (List (String × PyVal) × String × Nat) → StateManager
  | [] => m
  | (u, sn, t) :: rest =>
      match m.update_state sid u sn t with
      | .ok (_, m') => applyUpdateSeq m' sid rest
      | .error _ => applyUpdateSeq m sid rest

/-- The store after a `log_stage_execution` call, identity when the
call raises. -/
def logStageRun (m : StateManager) (session_id : String)
    (stage_id : Nat) (stage_name : String) (status : StageStatus)
    (abilities_executed : List String) (server_used : Option String)
    (duration_ms : Option Int) (error_message : Option String)
    (output : Option PyVal) (now : Nat) : StateManager :=
  match m.log_stage_execution session_id stage_id stage_name status
      abilities_executed server_used duration_ms error_message output now with
  | .ok m' => m'
  | .error _ => m

end StateManager

/-- The state a successful stage execution returned (`[]` when the
stage raised). -/
def okState (r : (Except String PyState) × StateManager) : PyState :=
  match r.1 with
  | .ok st => st
  | .error _ => []

/-- The `abilities_executed` list the DECIDE body hands to the
execution log — the record of which abilities the stage invoked. -/
def Decide.abilitiesOf (sd : ServerData) (st : PyState) (session_id : String)
    (now : Nat) : List String :=
  match Decide.decide_body sd st session_id now with
  | .ok (_, abilities) => abilities
  | .error (_, abilities) => abilities

/-- The `abilities_executed` list the UPDATE body hands to the
execution log. -/
def Update.abilitiesOf (sd : ServerData) (st : PyState) (session_id : String) :
    List String :=
  match Update.update_body sd st session_id with
  | .ok (_, abilities) => abilities
  | .error (_, abilities) => abilities

/-! ## Concrete scenario used to witness the stage theorems -/

namespace Scenario

/-- A backend whose `solution_evaluation` ability reports `ev`. -/
def sdOf (ev : PyVal) : ServerData := fun _ ability _ _ =>
  if ability == "solution_evaluation" then ev else .dict [("message", .str "ok")]

/-- A backend whose `update_ticket` ability reports a new status. -/
def sdTicket : ServerData := fun _ ability _ _ =>
  if ability == "update_ticket" then
    .dict [("ticket_updated", .bool true), ("new_status", .str "In Progress")]
  else .dict [("message", .str "ok")]

/-- A store holding one session that has passed RETRIEVE (a solution
list, enrichment and flags are present). -/
def mDecide : StateManager :=
  (((StateManager.mk [] [] [] 0).create_initial_state (.str "Jane Doe")
    (.str "jane@x.com") (.str "payment failed") (.str "high") .none 0).2).applyUpdateSeq
    "session-0"
    [([("retrieved_solutions", .list [.dict [("id", .str "SOL-A")]]),
       ("enriched_records", .dict [("customer_tier", .str "premium")]),
       ("calculated_flags", .dict [("sla_risk_score", .int 75)])], "PREPARE", 1)]

/-- The latest state of that session. -/
def stDecide : PyState :=
  match mDecide.get_current_state "session-0" with
  | .ok st => st
  | .error _ => []

/-- An evaluation whose best score is 60. -/
def evLow : PyVal := .dict
  [ ("solution_scores", .dict [("SOL-C", .dict [("overall_score", .int 60)])]),
    ("confidence", .flt "0.5") ]

/-- An evaluation with a single solution scored 92. -/
def evAuto : PyVal := .dict
  [ ("solution_scores", .dict [("SOL-D", .dict [("overall_score", .int 92)])]),
    ("confidence", .flt "0.9") ]

/-- An evaluation where solution A scores 92 and is recommended while
solution B scores 95 and is not. -/
def evRecommended : PyVal := .dict
  [ ("solution_scores", .dict
      [ ("SOL-A", .dict [("overall_score", .int 92)]),
        ("SOL-B", .dict [("overall_score", .int 95)]) ]),
    ("recommended_solution", .str "SOL-A"),
    ("confidence", .flt "0.92") ]

/-- An evaluation with an empty score map. -/
def evEmpty : PyVal := .dict [("solution_scores", .dict [])]

end Scenario

/-! ## Basic lemmas about the state dict and the store -/

theorem PyState.set_of_not_hasKey {st : PyState} {k : String} (v : StateVal)
    (h : st.hasKey k = false) : st.set k v = st := by
  induction st with
  | nil => rfl
  | cons kv rest ih =>
      obtain ⟨k', v'⟩ := kv
      simp only [hasKey, lookup] at h
      by_cases hk : k' = k
      · simp [hk] at h
      · simp only [set, if_neg hk]
        rw [ih]
        simp only [hasKey]
        simpa [lookup, hk] using h

theorem PyState.lookup_set_self {st : PyState} {k : String} (v : StateVal)
    (h : st.hasKey k = true) : (st.set k v).lookup k = some v := by
  induction st with
  | nil => simp [hasKey, lookup] at h
  | cons kv rest ih =>
      obtain ⟨k', v'⟩ := kv
      by_cases hk : k' = k
      · simp [set, hk, lookup]
      · simp only [hasKey, lookup, if_neg hk, set] at h ⊢
        exact ih h

theorem PyState.lookup_set_ne {st : PyState} {k k' : String} (v : StateVal)
    (h : ¬ k' = k) : (st.set k' v).lookup k = st.lookup k := by
  induction st with
  | nil => rfl
  | cons kv rest ih =>
      obtain ⟨k'', v''⟩ := kv
      by_cases hk : k'' = k'
      · subst hk
        simp [set, lookup, h]
      · simp only [set, if_neg hk, lookup]
        by_cases hk2 : k'' = k
        · simp [hk2]
        · simp [hk2, ih]

theorem PyState.hasKey_set {st : PyState} {k k' : String} (v : StateVal) :
    (st.set k' v).hasKey k = st.hasKey k := by
  by_cases hk : k' = k
  · subst hk
    by_cases h : st.hasKey k'
    · simp only [hasKey, lookup_set_self v h, Option.isSome_some]
      simp only [hasKey] at h
      exact h.symm
    · rw [set_of_not_hasKey v (by simpa using h)]
  · simp [hasKey, lookup_set_ne v hk]

theorem PyState.hasKey_eq_contains (st : PyState) (k : String) :
    st.hasKey k = (st.map Prod.fst).contains k := by
  induction st with
  | nil => rfl
  | cons kv rest ih =>
      obtain ⟨k', v'⟩ := kv
      by_cases hk : k' = k
      · simp [hasKey, lookup, hk]
      · simp only [hasKey, lookup, if_neg hk, List.map, List.contains_cons]
        rw [← ih]
        simp [hasKey]
        intro h
        exact absurd h.symm hk

theorem StateManager.applyUpdates_fst_hasKey (sn : String)
    (us : List (String × PyVal)) (st : PyState) (eh : List (List String)) (k : String) :
    ((StateManager.applyUpdates sn st eh us).1).hasKey k = st.hasKey k := by
  induction us generalizing st eh with
  | nil => rfl
  | cons u rest ih =>
      obtain ⟨uk, uv⟩ := u
      by_cases h : st.hasKey uk
      · simp only [StateManager.applyUpdates, h, if_pos]
        rw [ih]
        exact PyState.hasKey_set _
      · simp only [StateManager.applyUpdates, h]
        simp only [Bool.false_eq_true, if_neg]
        exact ih _ _

theorem StateManager.applyUpdates_fst_lookup_ne (sn : String)
    (us : List (String × PyVal)) (st : PyState) (eh : List (List String)) (k : String)
    (h : ∀ kv ∈ us, kv.1 ≠ k) :
    ((StateManager.applyUpdates sn st eh us).1).lookup k = st.lookup k := by
  induction us generalizing st eh with
  | nil => rfl
  | cons u rest ih =>
      obtain ⟨uk, uv⟩ := u
      have huk : uk ≠ k := h (uk, uv) (by simp)
      have hrest : ∀ kv ∈ rest, kv.1 ≠ k := fun kv hkv => h kv (by simp [hkv])
      by_cases hk : st.hasKey uk
      · simp only [StateManager.applyUpdates, hk, if_pos]
        rw [ih _ _ hrest, PyState.lookup_set_ne _ huk]
      · simp only [StateManager.applyUpdates, hk]
        simp only [Bool.false_eq_true, if_neg]
        exact ih _ _ hrest

theorem StateManager.histLookup_histSet_self (sid : String) (h : List PyState)
    (hs : List (String × List PyState)) :
    StateManager.histLookup sid (StateManager.histSet sid h hs) = some h := by
  induction hs with
  | nil => simp [StateManager.histSet, StateManager.histLookup]
  | cons kv rest ih =>
      obtain ⟨k, v⟩ := kv
      by_cases hk : k = sid
      · simp [StateManager.histSet, hk, StateManager.histLookup]
      · simp [StateManager.histSet, hk, StateManager.histLookup, ih]

theorem StateManager.length_appendAt (heap : List (List α)) (r : Nat) (x : α) :
    (StateManager.appendAt heap r x).length = heap.length := by
  simp [StateManager.appendAt]

theorem StateManager.getD_appendAt_self (heap : List (List α)) (r : Nat) (x : α)
    (h : r < heap.length) :
    (StateManager.appendAt heap r x).getD r [] = heap.getD r [] ++ [x] := by
  simp [StateManager.appendAt, List.getD, List.getElem?_set_eq_of_lt _ h]

theorem StateManager.get_current_state_ok {m : StateManager} {sid : String} {st : PyState} :
    m.get_current_state sid = .ok st ↔
      ∃ hist, StateManager.histLookup sid m.histories = some hist ∧
        hist.getLast? = some st := by
  unfold StateManager.get_current_state
  cases hh : StateManager.histLookup sid m.histories with
  | none => simp
  | some hist =>
      cases hl : hist.getLast? with
      | none => simp [hl]
      | some cur => simp [hl]

theorem StateManager.create_histories (m : StateManager) (a b c d e : PyVal) (t : Nat) :
    (m.create_initial_state a b c d e t).2.histories =
      StateManager.histSet m.freshSessionId
        [(m.create_initial_state a b c d e t).1] m.histories := rfl

/-- The history of a live session grows by exactly one version per
`update_state` call, keeping its first element. -/
theorem StateManager.applyUpdateSeq_hist
    (us : List (List (String × PyVal) × String × Nat)) :
    ∀ (m : StateManager) (sid : String) (hist : List PyState),
      StateManager.histLookup sid m.histories = some hist → hist ≠ [] →
      ∃ histN : List PyState,
        StateManager.histLookup sid (StateManager.applyUpdateSeq m sid us).histories
          = some histN ∧
        histN.length = hist.length + us.length ∧
        histN.head? = hist.head? ∧ histN ≠ [] := by
  induction us with
  | nil =>
      intro m sid hist hh hne
      exact ⟨hist, hh, by simp [StateManager.applyUpdateSeq], rfl, hne⟩
  | cons u rest ih =>
      intro m sid hist hh hne
      obtain ⟨uu, sn, t⟩ := u
      obtain ⟨cur, hcur⟩ : ∃ cur, hist.getLast? = some cur := by
        cases hg : hist.getLast? with
        | none => exact absurd (List.getLast?_eq_none_iff.mp hg) hne
        | some c => exact ⟨c, rfl⟩
      cases hres : m.update_state sid uu sn t with
      | error e =>
          exfalso
          simp [StateManager.update_state, hh, hcur] at hres
      | ok p =>
          obtain ⟨st', m'⟩ := p
          have hshape := hres
          simp only [StateManager.update_state, hh, hcur, Except.ok.injEq,
            Prod.mk.injEq] at hshape
          obtain ⟨hst, hm⟩ := hshape
          have hm' : StateManager.histLookup sid m'.histories = some (hist ++ [st']) := by
            rw [← hm, hst]
            exact StateManager.histLookup_histSet_self _ _ _
          simp only [StateManager.applyUpdateSeq, hres]
          obtain ⟨histN, h1, h2, h3, h4⟩ := ih m' sid (hist ++ [st']) hm' (by simp)
          refine ⟨histN, h1, ?_, ?_, h4⟩
          · simp only [List.length_append, List.length_cons, List.length_singleton,
              List.length_nil] at h2 ⊢
            omega
          · rw [h3]
            cases hist with
            | nil => exact absurd rfl hne
            | cons a l => simp

/-- C7: for every session created with `create_initial_state` and
every finite sequence of `update_state` calls on it (and no other
mutating calls), `get_state_history` has length (number of calls) + 1,
its first element is the initial version, and `get_current_state`
returns exactly its last element. -/
theorem c7_state_store_history_invariant
    (m0 : StateManager) (cn em q pr tid : PyVal) (t0 : Nat)
    (us : List (List (String × PyVal) × String × Nat)) :
    (((m0.create_initial_state cn em q pr tid t0).2.applyUpdateSeq
        m0.freshSessionId us).get_state_history m0.freshSessionId).length
      = us.length + 1 ∧
    (((m0.create_initial_state cn em q pr tid t0).2.applyUpdateSeq
        m0.freshSessionId us).get_state_history m0.freshSessionId).head?
      = some (m0.create_initial_state cn em q pr tid t0).1 ∧
    (((m0.create_initial_state cn em q pr tid t0).2.applyUpdateSeq
        m0.freshSessionId us).get_state_history m0.freshSessionId).getLast?.map Except.ok
      = some (((m0.create_initial_state cn em q pr tid t0).2.applyUpdateSeq
          m0.freshSessionId us).get_current_state m0.freshSessionId) := by
  obtain ⟨histN, hh, hlen, hhead, hne⟩ :=
    StateManager.applyUpdateSeq_hist us (m0.create_initial_state cn em q pr tid t0).2
      m0.freshSessionId [(m0.create_initial_state cn em q pr tid t0).1]
      (by rw [StateManager.create_histories]
          exact StateManager.histLookup_histSet_self _ _ _)
      (by simp)
  have hgs : ((m0.create_initial_state cn em q pr tid t0).2.applyUpdateSeq
      m0.freshSessionId us).get_state_history m0.freshSessionId = histN := by
    simp [StateManager.get_state_history, hh]
  obtain ⟨last, hlast⟩ : ∃ l, histN.getLast? = some l := by
    cases hg : histN.getLast? with
    | none => exact absurd (List.getLast?_eq_none_iff.mp hg) hne
    | some c => exact ⟨c, rfl⟩
  refine ⟨?_, ?_, ?_⟩
  · rw [hgs, hlen]; simp [Nat.add_comm]
  · rw [hgs, hhead]; simp
  · rw [hgs, hlast]
    simp [StateManager.get_current_state, hh, hlast]

theorem StateManager.create_fst_lookup_log (m : StateManager) (a b c d e : PyVal) (t : Nat) :
    (m.create_initial_state a b c d e t).1.lookup "execution_log"
      = some (.logRef m.logHeap.length) := rfl

theorem StateManager.create_fst_lookup_errors (m : StateManager) (a b c d e : PyVal) (t : Nat) :
    (m.create_initial_state a b c d e t).1.lookup "errors"
      = some (.errsRef m.errHeap.length) := rfl

theorem StateManager.create_snd_logHeap (m : StateManager) (a b c d e : PyVal) (t : Nat) :
    (m.create_initial_state a b c d e t).2.logHeap = m.logHeap ++ [[]] := rfl

theorem StateManager.applyUpdateSeq_logHeap
    (us : List (List (String × PyVal) × String × Nat)) :
    ∀ (m : StateManager) (sid : String),
      (StateManager.applyUpdateSeq m sid us).logHeap = m.logHeap := by
  induction us with
  | nil => intro m sid; rfl
  | cons u rest ih =>
      intro m sid
      obtain ⟨uu, sn, t⟩ := u
      simp only [StateManager.applyUpdateSeq]
      cases hres : m.update_state sid uu sn t with
      | error e => exact ih m sid
      | ok p =>
          obtain ⟨st', m'⟩ := p
          rw [ih m' sid]
          cases hh : StateManager.histLookup sid m.histories with
          | none => simp [StateManager.update_state, hh] at hres
          | some hist =>
              cases hl : hist.getLast? with
              | none => simp [StateManager.update_state, hh, hl] at hres
              | some cur =>
                  simp only [StateManager.update_state, hh, hl, Except.ok.injEq,
                    Prod.mk.injEq] at hres
                  rw [← hres.2]

/-- Versions appended by `update_state` calls that never assign
`execution_log` or `errors` keep referring to the session's original
`execution_log` and `errors` list objects. -/
theorem StateManager.applyUpdateSeq_shares
    (us : List (List (String × PyVal) × String × Nat))
    (hus : ∀ u ∈ us, ∀ kv ∈ u.1, kv.1 ≠ "execution_log" ∧ kv.1 ≠ "errors") :
    ∀ (m : StateManager) (sid : String) (hist : List PyState) (r e : Nat),
      StateManager.histLookup sid m.histories = some hist → hist ≠ [] →
      (∀ st ∈ hist, st.lookup "execution_log" = some (.logRef r) ∧
                    st.lookup "errors" = some (.errsRef e)) →
      ∃ histN,
        StateManager.histLookup sid (StateManager.applyUpdateSeq m sid us).histories
          = some histN ∧ histN ≠ [] ∧
        ∀ st ∈ histN, st.lookup "execution_log" = some (.logRef r) ∧
                      st.lookup "errors" = some (.errsRef e) := by
  induction us with
  | nil =>
      intro m sid hist r e hh hne hshare
      exact ⟨hist, hh, hne, hshare⟩
  | cons u rest ih =>
      intro m sid hist r e hh hne hshare
      obtain ⟨uu, sn, t⟩ := u
      have hu : ∀ kv ∈ uu, kv.1 ≠ "execution_log" ∧ kv.1 ≠ "errors" :=
        fun kv hkv => hus (uu, sn, t) (by simp) kv hkv
      have hrest : ∀ u ∈ rest, ∀ kv ∈ u.1, kv.1 ≠ "execution_log" ∧ kv.1 ≠ "errors" :=
        fun u hu' kv hkv => hus u (by simp [hu']) kv hkv
      obtain ⟨cur, hcur⟩ : ∃ cur, hist.getLast? = some cur := by
        cases hg : hist.getLast? with
        | none => exact absurd (List.getLast?_eq_none_iff.mp hg) hne
        | some c => exact ⟨c, rfl⟩
      have hcurmem : cur ∈ hist := by
        obtain ⟨hne', heq⟩ := List.mem_getLast?_eq_getLast (Option.mem_def.mpr hcur)
        rw [heq]
        exact List.getLast_mem hne'

      cases hres : m.update_state sid uu sn t with
      | error e' =>
          exfalso
          simp [StateManager.update_state, hh, hcur] at hres
      | ok p =>
          obtain ⟨st', m'⟩ := p
          have hshape := hres
          simp only [StateManager.update_state, hh, hcur, Except.ok.injEq,
            Prod.mk.injEq] at hshape
          obtain ⟨hst, hm⟩ := hshape
          have hstlog : st'.lookup "execution_log" = some (.logRef r) := by
            rw [← hst]
            rw [PyState.lookup_set_ne _ (by decide), PyState.lookup_set_ne _ (by decide)]
            rw [StateManager.applyUpdates_fst_lookup_ne _ _ _ _ _
              (fun kv hkv => (hu kv hkv).1)]
            exact (hshare cur hcurmem).1
          have hsterr : st'.lookup "errors" = some (.errsRef e) := by
            rw [← hst]
            rw [PyState.lookup_set_ne _ (by decide), PyState.lookup_set_ne _ (by decide)]
            rw [StateManager.applyUpdates_fst_lookup_ne _ _ _ _ _
              (fun kv hkv => (hu kv hkv).2)]
            exact (hshare cur hcurmem).2
          have hm' : StateManager.histLookup sid m'.histories = some (hist ++ [st']) := by
            rw [← hm, hst]
            exact StateManager.histLookup_histSet_self _ _ _
          simp only [StateManager.applyUpdateSeq, hres]
          refine ih hrest m' sid (hist ++ [st']) r e hm' (by simp) ?_
          intro st hst'
          rcases List.mem_append.mp hst' with hmem | hmem
          · exact hshare st hmem
          · simp at hmem
            subst hmem
            exact ⟨hstlog, hsterr⟩

/-- C8: `update_state` copies the latest version shallowly, so the
`execution_log` (and `errors`) list object is the same object in every
version of a session's history, and an entry appended by
`log_stage_execution` is visible through every earlier version returned
by `get_state_history`, not only the latest. -/
theorem c8_shared_mutable_log_across_versions
    (m0 : StateManager) (cn em q pr tid : PyVal) (t0 : Nat)
    (us : List (List (String × PyVal) × String × Nat))
    (hus : ∀ u ∈ us, ∀ kv ∈ u.1, kv.1 ≠ "execution_log" ∧ kv.1 ≠ "errors")
    (stid : Nat) (stn : String) (status : StageStatus) (abs : List String)
    (su : Option String) (dur : Option Int) (emsg : Option String)
    (out : Option PyVal) (t1 : Nat) :
    let sid := m0.freshSessionId
    let mN := ((m0.create_initial_state cn em q pr tid t0).2).applyUpdateSeq sid us
    let mL := mN.logStageRun sid stid stn status abs su dur emsg out t1
    mN.log_stage_execution sid stid stn status abs su dur emsg out t1 = .ok mL ∧
    (∀ st ∈ mN.get_state_history sid,
       st.lookup "execution_log" = some (.logRef m0.logHeap.length)) ∧
    (∀ st ∈ mN.get_state_history sid,
       st.lookup "errors" = some (.errsRef m0.errHeap.length)) ∧
    ∀ st ∈ mL.get_state_history sid,
      mL.viewLog st = mN.viewLog st ++
        [⟨stid, stn, t1, status, abs, su, dur, emsg, out⟩] := by
  intro sid mN mL
  have h1 : StateManager.histLookup sid
      (m0.create_initial_state cn em q pr tid t0).2.histories
        = some [(m0.create_initial_state cn em q pr tid t0).1] := by
    rw [StateManager.create_histories]
    exact StateManager.histLookup_histSet_self _ _ _
  obtain ⟨histN, hh, hne, hshare⟩ :=
    StateManager.applyUpdateSeq_shares us hus
      (m0.create_initial_state cn em q pr tid t0).2 sid
      [(m0.create_initial_state cn em q pr tid t0).1]
      m0.logHeap.length m0.errHeap.length h1 (by simp)
      (by
        intro st hst
        simp at hst
        subst hst
        exact ⟨StateManager.create_fst_lookup_log _ _ _ _ _ _ _,
               StateManager.create_fst_lookup_errors _ _ _ _ _ _ _⟩)
  have hlh : mN.logHeap = m0.logHeap ++ [[]] := by
    rw [StateManager.applyUpdateSeq_logHeap]
    exact StateManager.create_snd_logHeap _ _ _ _ _ _ _
  have hbound : m0.logHeap.length < mN.logHeap.length := by
    rw [hlh]
    simp
  obtain ⟨curN, hcurN⟩ : ∃ c, histN.getLast? = some c := by
    cases hg : histN.getLast? with
    | none => exact absurd (List.getLast?_eq_none_iff.mp hg) hne
    | some c => exact ⟨c, rfl⟩
  have hcurmem : curN ∈ histN := by
    obtain ⟨hne', heq⟩ := List.mem_getLast?_eq_getLast (Option.mem_def.mpr hcurN)
    rw [heq]
    exact List.getLast_mem hne'
  have hcl : curN.lookup "execution_log" = some (.logRef m0.logHeap.length) :=
    (hshare curN hcurmem).1
  have hce : curN.lookup "errors" = some (.errsRef m0.errHeap.length) :=
    (hshare curN hcurmem).2
  have hok : mN.log_stage_execution sid stid stn status abs su dur emsg out t1
      = .ok mL := by
    show mN.log_stage_execution sid stid stn status abs su dur emsg out t1
      = .ok (mN.logStageRun sid stid stn status abs su dur emsg out t1)
    cases emsg <;>
      simp [StateManager.log_stage_execution, StateManager.logStageRun, hh, hcurN, hcl, hce]
  have hM1 : mL.histories = mN.histories := by
    show (mN.logStageRun sid stid stn status abs su dur emsg out t1).histories
      = mN.histories
    cases emsg <;>
      simp [StateManager.log_stage_execution, StateManager.logStageRun, hh, hcurN, hcl, hce]
  have hM2 : mL.logHeap = StateManager.appendAt mN.logHeap m0.logHeap.length
      ⟨stid, stn, t1, status, abs, su, dur, emsg, out⟩ := by
    show (mN.logStageRun sid stid stn status abs su dur emsg out t1).logHeap = _
    cases emsg <;>
      simp [StateManager.log_stage_execution, StateManager.logStageRun, hh, hcurN, hcl, hce]
  have hgsN : mN.get_state_history sid = histN := by
    simp [StateManager.get_state_history, hh]
  refine ⟨hok, ?_, ?_, ?_⟩
  · intro st hst
    rw [hgsN] at hst
    exact (hshare st hst).1
  · intro st hst
    rw [hgsN] at hst
    exact (hshare st hst).2
  · intro st hst
    have hgsL : mL.get_state_history sid = histN := by
      simp [StateManager.get_state_history, hM1, hh]
    rw [hgsL] at hst
    simp only [StateManager.viewLog, (hshare st hst).1, hM2]
    exact StateManager.getD_appendAt_self _ _ _ hbound

/-- Witness for C8 on a concrete session with one update and a
COMPLETED log entry. -/
theorem c8_shared_mutable_log_across_versions_witness :
    (∀ u ∈ [([(("priority" : String), PyVal.str "high")], ("X" : String), (1 : Nat))],
       ∀ kv ∈ u.1, kv.1 ≠ "execution_log" ∧ kv.1 ≠ "errors") ∧
    (let sid := (StateManager.mk [] [] [] 0).freshSessionId
     let mN := (((StateManager.mk [] [] [] 0).create_initial_state
        (.str "J") (.str "j@x") (.str "q") (.str "medium") .none 0).2).applyUpdateSeq sid
        [([("priority", PyVal.str "high")], "X", 1)]
     let mL := mN.logStageRun sid 2 "UNDERSTAND" .COMPLETED ["parse_request_text"]
        (some "COMMON") (some 0) Option.none Option.none 2
     mN.log_stage_execution sid 2 "UNDERSTAND" .COMPLETED ["parse_request_text"]
        (some "COMMON") (some 0) Option.none Option.none 2 = .ok mL ∧
     (∀ st ∈ mN.get_state_history sid,
        st.lookup "execution_log" = some (.logRef 0)) ∧
     (∀ st ∈ mN.get_state_history sid,
        st.lookup "errors" = some (.errsRef 0)) ∧
     ∀ st ∈ mL.get_state_history sid,
       mL.viewLog st = mN.viewLog st ++
         [⟨2, "UNDERSTAND", 2, .COMPLETED, ["parse_request_text"],
           some "COMMON", some 0, Option.none, Option.none⟩]) :=
  ⟨by simp, c8_shared_mutable_log_across_versions (StateManager.mk [] [] [] 0)
    (.str "J") (.str "j@x") (.str "q") (.str "medium") .none 0
    [([("priority", PyVal.str "high")], "X", 1)] (by simp)
    2 "UNDERSTAND" .COMPLETED ["parse_request_text"] (some "COMMON") (some 0)
    Option.none Option.none 2⟩

/-- C3: for every ability name missing from the fifteen-entry routing
table, `execute_ability` does not return the intended failure envelope:
constructing `MCPResponse(..., server_type=None)` fails pydantic
validation of the required `server_type` field, so the call raises a
`ValidationError` instead of returning. -/
theorem c3_unknown_ability_raises (sd : ServerData) (ability : String)
    (parameters context : PyVal) (session_id : String)
    (h : lookupServer ability = Option.none) :
    execute_ability sd ability parameters context session_id =
      .error "ValidationError: server_type none is not an allowed value" := by
  simp [execute_ability, h, MCPResponse.validate]

/-- Witness for C3 at the concrete unknown ability name
`"store_data"`. -/
theorem c3_unknown_ability_raises_witness :
    lookupServer "store_data" = Option.none ∧
    execute_ability (fun _ _ _ _ => .dict []) "store_data" (.dict []) (.dict []) "s"
      = .error "ValidationError: server_type none is not an allowed value" :=
  ⟨rfl, c3_unknown_ability_raises (fun _ _ _ _ => .dict []) "store_data"
    (.dict []) (.dict []) "s" rfl⟩

/-- The final value under a key after an `update_state` loop: the last
update that names a present key wins. -/
theorem StateManager.applyUpdates_fst_lookup_found (sn : String) :
    ∀ (us : List (String × PyVal)) (st : PyState) (eh : List (List String))
      (k : String) (v : PyVal),
      st.hasKey k = true →
      (us.filter (fun kv => kv.1 == k)).getLast? = some (k, v) →
      ((StateManager.applyUpdates sn st eh us).1).lookup k = some (.py v) := by
  intro us
  induction us with
  | nil => intro st eh k v hk hf; simp at hf
  | cons u rest ih =>
      intro st eh k v hk hf
      obtain ⟨k', v'⟩ := u
      by_cases hkk : k' = k
      · subst hkk
        rw [List.filter_cons] at hf
        simp only [beq_self_eq_true, if_pos, cond_true] at hf
        simp only [StateManager.applyUpdates, hk, if_pos]
        cases hrest : rest.filter (fun kv => kv.1 == k') with
        | nil =>
            rw [hrest] at hf
            simp only [List.getLast?_singleton, Option.some.injEq, Prod.mk.injEq] at hf
            have hnone : ∀ kv ∈ rest, kv.1 ≠ k' := by
              intro kv hkv
              intro hcontra
              have : kv ∈ rest.filter (fun kv => kv.1 == k') :=
                List.mem_filter.mpr ⟨hkv, by simp [hcontra]⟩
              rw [hrest] at this
              simp at this
            rw [StateManager.applyUpdates_fst_lookup_ne _ _ _ _ _ hnone]
            rw [PyState.lookup_set_self _ hk, hf.2]
        | cons a l =>
            rw [hrest] at hf
            rw [List.getLast?_cons_cons] at hf
            refine ih (st.set k' (.py v')) _ k' v ?_ ?_
            · rw [PyState.hasKey_set]
              exact hk
            · rw [hrest]
              exact hf
      · have hfilter : ((k', v') :: rest).filter (fun kv => kv.1 == k)
            = rest.filter (fun kv => kv.1 == k) := by
          rw [List.filter_cons]
          simp [hkk]
        rw [hfilter] at hf
        by_cases hsk : st.hasKey k'
        · simp only [StateManager.applyUpdates, hsk, if_pos]
          refine ih _ _ k v ?_ hf
          rw [PyState.hasKey_set]
          exact hk
        · simp only [StateManager.applyUpdates, hsk]
          simp only [Bool.false_eq_true, if_neg]
          exact ih _ _ k v hk hf

/-- `log_stage_execution` on a live session always returns a store
(the entry lands wherever the version's `execution_log` slot points). -/
theorem StateManager.log_stage_execution_ok (m : StateManager) (sid : String)
    (stid : Nat) (stn : String) (status : StageStatus) (abs : List String)
    (su : Option String) (dur : Option Int) (emsg : Option String)
    (out : Option PyVal) (t : Nat) (hist : List PyState) (cur : PyState)
    (hh : StateManager.histLookup sid m.histories = some hist)
    (hl : hist.getLast? = some cur) :
    ∃ m', m.log_stage_execution sid stid stn status abs su dur emsg out t = .ok m' := by
  simp only [StateManager.log_stage_execution, hh, hl]
  exact ⟨_, rfl⟩

/-- Reduction of `DecideStage.execute` on a live session with the
prerequisite present and a successful body: the stage writes exactly
the body's results and succeeds. -/
theorem Decide.execute_reduces
    (sd : ServerData) (m : StateManager) (sid : String) (now : Nat)
    (st : PyState) (hist : List PyState) (results : List (String × PyVal))
    (abilities : List String)
    (hh : StateManager.histLookup sid m.histories = some hist)
    (hl : hist.getLast? = some st)
    (hsol : (st.getPy "retrieved_solutions" .none).truthy = true)
    (hbody : Decide.decide_body sd st sid now = .ok (results, abilities)) :
    ∃ upd m2, Decide.execute sd m sid now = (.ok upd, m2) ∧
      upd = ((((StateManager.applyUpdates "DECIDE" st m.errHeap results).1).set
          "current_stage" (.py (.str "DECIDE"))).set "updated_at" (.py (.int now))) := by
  have hcur : m.get_current_state sid = .ok st :=
    StateManager.get_current_state_ok.mpr ⟨hist, hh, hl⟩
  cases hupd : m.update_state sid results "DECIDE" now with
  | error e =>
      exfalso
      simp [StateManager.update_state, hh, hl] at hupd
  | ok p =>
      obtain ⟨upd, m1⟩ := p
      have hshape := hupd
      simp only [StateManager.update_state, hh, hl, Except.ok.injEq,
        Prod.mk.injEq] at hshape
      obtain ⟨hupd_st, hupd_m⟩ := hshape
      have hh1 : StateManager.histLookup sid m1.histories = some (hist ++ [upd]) := by
        rw [← hupd_m, hupd_st]
        exact StateManager.histLookup_histSet_self _ _ _
      obtain ⟨m2, hm2⟩ := StateManager.log_stage_execution_ok m1 sid 7 "DECIDE"
        .COMPLETED abilities (some "COMMON,ATLAS")
        (some 0) Option.none (some (.dict results)) now
        (hist ++ [upd]) upd hh1 (List.getLast?_concat _)
      refine ⟨upd, m2, ?_, hupd_st.symm⟩
      simp only [Decide.execute, hcur, hsol, Bool.not_true, Bool.false_eq_true,
        if_neg, hbody, hupd]
      rw [hm2]
      simp

/-- A successful DECIDE run returns its written state. -/
theorem Decide.executed_ok
    (sd : ServerData) (m : StateManager) (sid : String) (now : Nat)
    (st : PyState) (hist : List PyState) (results : List (String × PyVal))
    (abilities : List String)
    (hh : StateManager.histLookup sid m.histories = some hist)
    (hl : hist.getLast? = some st)
    (hsol : (st.getPy "retrieved_solutions" .none).truthy = true)
    (hbody : Decide.decide_body sd st sid now = .ok (results, abilities)) :
    (Decide.execute sd m sid now).1 = .ok (okState (Decide.execute sd m sid now)) := by
  obtain ⟨upd, m2, hexec, -⟩ :=
    Decide.execute_reduces sd m sid now st hist results abilities hh hl hsol hbody
  rw [hexec]
  rfl

/-- The value a successful DECIDE run leaves under a state key that its
results assign. -/
theorem Decide.executed_field
    (sd : ServerData) (m : StateManager) (sid : String) (now : Nat)
    (st : PyState) (hist : List PyState) (results : List (String × PyVal))
    (abilities : List String) (k : String) (v : PyVal)
    (hh : StateManager.histLookup sid m.histories = some hist)
    (hl : hist.getLast? = some st)
    (hsol : (st.getPy "retrieved_solutions" .none).truthy = true)
    (hbody : Decide.decide_body sd st sid now = .ok (results, abilities))
    (hk : st.hasKey k = true)
    (hfl : (results.filter (fun kv => kv.1 == k)).getLast? = some (k, v))
    (hne1 : ¬ "current_stage" = k) (hne2 : ¬ "updated_at" = k) :
    (okState (Decide.execute sd m sid now)).lookup k = some (.py v) := by
  obtain ⟨upd, m2, hexec, hupdeq⟩ :=
    Decide.execute_reduces sd m sid now st hist results abilities hh hl hsol hbody
  rw [hexec]
  simp only [okState]
  rw [hupdeq, PyState.lookup_set_ne _ hne2, PyState.lookup_set_ne _ hne1]
  exact StateManager.applyUpdates_fst_lookup_found _ _ _ _ _ _ hk hfl

/-- C5: DECIDE escalation branch.  For every solution-evaluation
result whose best score is strictly below the fixed threshold 90, the
stage invokes the `escalation_decision` ability and writes
`escalation_decision=true`, `selected_solution` unset and
`decision_reasoning="Escalated due to low solution score (<score>)"`;
for a best score at or above 90 it does not invoke
`escalation_decision` and writes `escalation_decision=false`,
`selected_solution` = the best solution and
`decision_reasoning="Auto-resolved with solution score <score>"`. -/
theorem c5_decide_escalation_branch
    (sd : ServerData) (m : StateManager) (sid : String) (now : Nat)
    (st : PyState) (ev b s d conf : PyVal) (n : Int)
    (hcur : m.get_current_state sid = .ok st)
    (hsol : (st.getPy "retrieved_solutions" .none).truthy = true)
    (hk1 : st.hasKey "escalation_decision" = true)
    (hk2 : st.hasKey "selected_solution" = true)
    (hk3 : st.hasKey "decision_reasoning" = true)
    (hev : Decide.evaluate_solutions sd st sid = .ok ev)
    (hbest : Decide.find_best_solution ev = .ok (b, s))
    (hn : scoreVal s = some n)
    (hconf : ev.getE "confidence" (.flt "0.5") = .ok conf)
    (hmake : Decide.make_escalation_decision sd st ev s sid = .ok d) :
    (n < Decide.escalation_threshold →
      Decide.abilitiesOf sd st sid now
        = ["solution_evaluation", "escalation_decision", "update_payload"] ∧
      (Decide.execute sd m sid now).1 = .ok (okState (Decide.execute sd m sid now)) ∧
      (okState (Decide.execute sd m sid now)).lookup "escalation_decision"
        = some (.py (.bool true)) ∧
      (okState (Decide.execute sd m sid now)).lookup "selected_solution"
        = some (.py .none) ∧
      (okState (Decide.execute sd m sid now)).lookup "decision_reasoning"
        = some (.py (.str ("Escalated due to low solution score ("
            ++ s.pystr ++ ")")))) ∧
    (Decide.escalation_threshold ≤ n →
      Decide.abilitiesOf sd st sid now = ["solution_evaluation", "update_payload"] ∧
      (Decide.execute sd m sid now).1 = .ok (okState (Decide.execute sd m sid now)) ∧
      (okState (Decide.execute sd m sid now)).lookup "escalation_decision"
        = some (.py (.bool false)) ∧
      (okState (Decide.execute sd m sid now)).lookup "selected_solution"
        = some (.py b) ∧
      (okState (Decide.execute sd m sid now)).lookup "decision_reasoning"
        = some (.py (.str ("Auto-resolved with solution score " ++ s.pystr)))) := by
  obtain ⟨hist, hh, hl⟩ := StateManager.get_current_state_ok.mp hcur
  constructor
  · intro hlt
    have hbody : Decide.decide_body sd st sid now =
        .ok ([ ("solution_scores", ev),
               ("escalation_decision", .bool true),
               ("escalation_details", d),
               ("selected_solution", .none),
               ("decision_reasoning",
                 .str ("Escalated due to low solution score (" ++ s.pystr ++ ")")),
               ("decision_timestamp", .str (toString now)),
               ("decision_confidence", conf) ],
             ["solution_evaluation", "escalation_decision", "update_payload"]) := by
      simp [Decide.decide_body, hev, hbest, hn, hmake, hconf, if_pos hlt]
    refine ⟨?_, ?_, ?_, ?_, ?_⟩
    · simp [Decide.abilitiesOf, hbody]
    · exact Decide.executed_ok sd m sid now st hist _ _ hh hl hsol hbody
    · exact Decide.executed_field sd m sid now st hist _ _ _ _ hh hl hsol hbody
        hk1 (by rfl) (by decide) (by decide)
    · exact Decide.executed_field sd m sid now st hist _ _ _ _ hh hl hsol hbody
        hk2 (by rfl) (by decide) (by decide)
    · exact Decide.executed_field sd m sid now st hist _ _ _ _ hh hl hsol hbody
        hk3 (by rfl) (by decide) (by decide)
  · intro hge
    have hbody : Decide.decide_body sd st sid now =
        .ok ([ ("solution_scores", ev),
               ("escalation_decision", .bool false),
               ("selected_solution", b),
               ("decision_reasoning",
                 .str ("Auto-resolved with solution score " ++ s.pystr)),
               ("decision_timestamp", .str (toString now)),
               ("decision_confidence", conf) ],
             ["solution_evaluation", "update_payload"]) := by
      simp [Decide.decide_body, hev, hbest, hn, hconf, if_neg (not_lt.mpr hge)]
    refine ⟨?_, ?_, ?_, ?_, ?_⟩
    · simp [Decide.abilitiesOf, hbody]
    · exact Decide.executed_ok sd m sid now st hist _ _ hh hl hsol hbody
    · exact Decide.executed_field sd m sid now st hist _ _ _ _ hh hl hsol hbody
        hk1 (by rfl) (by decide) (by decide)
    · exact Decide.executed_field sd m sid now st hist _ _ _ _ hh hl hsol hbody
        hk2 (by rfl) (by decide) (by decide)
    · exact Decide.executed_field sd m sid now st hist _ _ _ _ hh hl hsol hbody
        hk3 (by rfl) (by decide) (by decide)

/-- Witness for C5: both branches at concrete evaluations (best score
60 escalates; best score 92 auto-resolves). -/
theorem c5_decide_escalation_branch_witness :
    ((okState (Decide.execute (Scenario.sdOf Scenario.evLow) Scenario.mDecide
        "session-0" 2)).lookup "escalation_decision" = some (.py (.bool true)) ∧
     (okState (Decide.execute (Scenario.sdOf Scenario.evLow) Scenario.mDecide
        "session-0" 2)).lookup "decision_reasoning"
       = some (.py (.str "Escalated due to low solution score (60)")) ∧
     Decide.abilitiesOf (Scenario.sdOf Scenario.evLow) Scenario.stDecide "session-0" 2
       = ["solution_evaluation", "escalation_decision", "update_payload"]) ∧
    ((okState (Decide.execute (Scenario.sdOf Scenario.evAuto) Scenario.mDecide
        "session-0" 2)).lookup "escalation_decision" = some (.py (.bool false)) ∧
     Decide.abilitiesOf (Scenario.sdOf Scenario.evAuto) Scenario.stDecide "session-0" 2
       = ["solution_evaluation", "update_payload"]) :=
  have hlow := c5_decide_escalation_branch (Scenario.sdOf Scenario.evLow)
    Scenario.mDecide "session-0" 2 Scenario.stDecide Scenario.evLow
    (.dict [("solution_id", .str "SOL-C"), ("score", .int 60),
            ("details", .dict [("overall_score", .int 60)])])
    (.int 60) (.dict [("message", .str "ok")]) (.flt "0.5") 60
    rfl rfl rfl rfl rfl rfl rfl rfl rfl rfl
  have hhigh := c5_decide_escalation_branch (Scenario.sdOf Scenario.evAuto)
    Scenario.mDecide "session-0" 2 Scenario.stDecide Scenario.evAuto
    (.dict [("solution_id", .str "SOL-D"), ("score", .int 92),
            ("details", .dict [("overall_score", .int 92)])])
    (.int 92) (.dict [("message", .str "ok")]) (.flt "0.9") 92
    rfl rfl rfl rfl rfl rfl rfl rfl rfl rfl
  ⟨⟨((hlow.1 (by decide)).2.2.1), ((hlow.1 (by decide)).2.2.2.2),
    ((hlow.1 (by decide)).1)⟩,
   ⟨((hhigh.2 (by decide)).2.2.1), ((hhigh.2 (by decide)).1)⟩⟩

theorem except_bind_ok {α β ε : Type} (x : α) (f : α → Except ε β) :
    ((Except.ok x : Except ε α) >>= f) = f x := rfl

theorem except_bind_error {α β ε : Type} (e : ε) (f : α → Except ε β) :
    ((Except.error e : Except ε α) >>= f) = .error e := rfl

/-- The scan over a well-formed score map (every solution record is a
dict with an int `overall_score`) never raises. -/
theorem Decide.foldlM_score_step_ok :
    ∀ (items : List (String × PyVal)) (acc : PyVal × PyVal),
      (∀ kv ∈ items, ∃ rec, kv.2 = PyVal.dict rec ∧
        ∃ nv : Int, PyVal.lookup "overall_score" rec = some (.int nv)) →
      (scoreVal acc.2).isSome = true →
      ∃ acc', items.foldlM Decide.score_step acc = .ok acc' ∧
        (scoreVal acc'.2).isSome = true := by
  intro items
  induction items with
  | nil => intro acc _ hacc; exact ⟨acc, rfl, hacc⟩
  | cons kv rest ih =>
      intro acc hshape hacc
      obtain ⟨rec, hrec, nv, hnv⟩ := hshape kv (by simp)
      obtain ⟨bv, hbv⟩ := Option.isSome_iff_exists.mp hacc
      have hge : (kv.2).getE "overall_score" (.int 0) = .ok (.int nv) := by
        simp [PyVal.getE, hrec, hnv]
      have hsv : scoreVal (PyVal.int nv) = some nv := rfl
      have hstep : Decide.score_step acc kv =
          .ok (if bv < nv then (PyVal.str kv.1, PyVal.int nv) else acc) := by
        by_cases hgt : bv < nv <;>
          simp [Decide.score_step, hge, hsv, hbv, hgt]
      have hrest : ∀ kv ∈ rest, ∃ rec, kv.2 = PyVal.dict rec ∧
          ∃ nv : Int, PyVal.lookup "overall_score" rec = some (.int nv) :=
        fun kv hkv => hshape kv (by simp [hkv])
      obtain ⟨acc', hacc', hsome⟩ := ih (if bv < nv then (PyVal.str kv.1, PyVal.int nv) else acc)
        hrest (by by_cases hgt : bv < nv <;> simp [hgt, hsv, hbv, hacc])
      refine ⟨acc', ?_, hsome⟩
      simp only [List.foldlM_cons, hstep]
      exact hacc'

/-- The recommendation override in `_find_best_solution`: whenever the
evaluation names a non-empty `recommended_solution` id present among
the scored solutions, that solution is returned with its own score,
regardless of the other solutions' scores. -/
theorem Decide.find_best_solution_recommended
    (ev : PyVal) (items : List (String × PyVal)) (r : String) (srec ov : PyVal)
    (hsc : ev.getE "solution_scores" (.dict []) = .ok (.dict items))
    (hne : items ≠ [])
    (hshape : ∀ kv ∈ items, ∃ rec, kv.2 = PyVal.dict rec ∧
      ∃ nv : Int, PyVal.lookup "overall_score" rec = some (.int nv))
    (hr : ev.getD "recommended_solution" .none = .str r)
    (hrt : r ≠ "")
    (hlook : PyVal.lookup r items = some srec)
    (hov : srec.get "overall_score" = some ov) :
    Decide.find_best_solution ev = .ok
      (.dict [("solution_id", .str r), ("score", ov), ("details", srec)], ov) := by
  obtain ⟨acc', hacc', -⟩ :=
    Decide.foldlM_score_step_ok items (PyVal.none, PyVal.flt "0.0") hshape (by rfl)
  have htr : (PyVal.dict items).truthy = true := by
    simp [PyVal.truthy]
    intro hcontra
    exact hne hcontra
  have hdetails : (PyVal.dict items).getD r (.dict []) = srec := by
    simp [PyVal.getD, PyVal.get, hlook]
  have htruthy : (PyVal.str r).truthy = true := by simp [PyVal.truthy, hrt]
  simp [Decide.find_best_solution, hsc, htr, hacc', hr, htruthy, hlook, hov,
    hdetails, except_bind_ok]

/-- C6: DECIDE recommendation override.  A recommended solution id
present among the scored solutions is selected even when another
solution has a numerically higher `overall_score`; with its recorded
score at or above 90 the stage auto-resolves with it. -/
theorem c6_decide_recommendation_override
    (sd : ServerData) (m : StateManager) (sid : String) (now : Nat)
    (st : PyState) (ev : PyVal) (items : List (String × PyVal))
    (r : String) (srec conf : PyVal) (nr : Int)
    (hcur : m.get_current_state sid = .ok st)
    (hsol : (st.getPy "retrieved_solutions" .none).truthy = true)
    (hk1 : st.hasKey "escalation_decision" = true)
    (hk2 : st.hasKey "selected_solution" = true)
    (hev : Decide.evaluate_solutions sd st sid = .ok ev)
    (hsc : ev.getE "solution_scores" (.dict []) = .ok (.dict items))
    (hne : items ≠ [])
    (hshape : ∀ kv ∈ items, ∃ rec, kv.2 = PyVal.dict rec ∧
      ∃ nv : Int, PyVal.lookup "overall_score" rec = some (.int nv))
    (hr : ev.getD "recommended_solution" .none = .str r)
    (hrt : r ≠ "")
    (hlook : PyVal.lookup r items = some srec)
    (hov : srec.get "overall_score" = some (.int nr))
    (hnr : 90 ≤ nr)
    (hconf : ev.getE "confidence" (.flt "0.5") = .ok conf) :
    Decide.find_best_solution ev = .ok
      (.dict [("solution_id", .str r), ("score", .int nr), ("details", srec)],
       .int nr) ∧
    Decide.abilitiesOf sd st sid now = ["solution_evaluation", "update_payload"] ∧
    (Decide.execute sd m sid now).1 = .ok (okState (Decide.execute sd m sid now)) ∧
    (okState (Decide.execute sd m sid now)).lookup "escalation_decision"
      = some (.py (.bool false)) ∧
    (okState (Decide.execute sd m sid now)).lookup "selected_solution"
      = some (.py (.dict [("solution_id", .str r), ("score", .int nr),
          ("details", srec)])) := by
  obtain ⟨hist, hh, hl⟩ := StateManager.get_current_state_ok.mp hcur
  have hbest := Decide.find_best_solution_recommended ev items r srec (.int nr)
    hsc hne hshape hr hrt hlook hov
  have hbody : Decide.decide_body sd st sid now =
      .ok ([ ("solution_scores", ev),
             ("escalation_decision", .bool false),
             ("selected_solution",
               .dict [("solution_id", .str r), ("score", .int nr), ("details", srec)]),
             ("decision_reasoning",
               .str ("Auto-resolved with solution score " ++ (PyVal.int nr).pystr)),
             ("decision_timestamp", .str (toString now)),
             ("decision_confidence", conf) ],
           ["solution_evaluation", "update_payload"]) := by
    have hge : Decide.escalation_threshold ≤ nr := hnr
    simp [Decide.decide_body, hev, hbest, hconf, scoreVal, if_neg (not_lt.mpr hge)]
  refine ⟨hbest, ?_, ?_, ?_, ?_⟩
  · simp [Decide.abilitiesOf, hbody]
  · exact Decide.executed_ok sd m sid now st hist _ _ hh hl hsol hbody
  · exact Decide.executed_field sd m sid now st hist _ _ _ _ hh hl hsol hbody
      hk1 (by rfl) (by decide) (by decide)
  · exact Decide.executed_field sd m sid now st hist _ _ _ _ hh hl hsol hbody
      hk2 (by rfl) (by decide) (by decide)

/-- Witness for C6: solution A scored 92 and recommended, solution B
scored 95 and not recommended — A is selected and the case
auto-resolves. -/
theorem c6_decide_recommendation_override_witness :
    Decide.find_best_solution Scenario.evRecommended = .ok
      (.dict [("solution_id", .str "SOL-A"), ("score", .int 92),
              ("details", .dict [("overall_score", .int 92)])], .int 92) ∧
    (okState (Decide.execute (Scenario.sdOf Scenario.evRecommended) Scenario.mDecide
        "session-0" 2)).lookup "escalation_decision" = some (.py (.bool false)) ∧
    (okState (Decide.execute (Scenario.sdOf Scenario.evRecommended) Scenario.mDecide
        "session-0" 2)).lookup "selected_solution"
      = some (.py (.dict [("solution_id", .str "SOL-A"), ("score", .int 92),
          ("details", .dict [("overall_score", .int 92)])])) :=
  have h := c6_decide_recommendation_override (Scenario.sdOf Scenario.evRecommended)
    Scenario.mDecide "session-0" 2 Scenario.stDecide Scenario.evRecommended
    [ ("SOL-A", .dict [("overall_score", .int 92)]),
      ("SOL-B", .dict [("overall_score", .int 95)]) ]
    "SOL-A" (.dict [("overall_score", .int 92)]) (.flt "0.92") 92
    rfl rfl rfl rfl rfl rfl (by simp)
    (by
      intro kv hkv
      simp at hkv
      rcases hkv with h | h <;>
        · rw [h]
          exact ⟨_, rfl, _, rfl⟩)
    rfl (by decide) rfl rfl (by decide) rfl
  ⟨h.1, h.2.2.2.1, h.2.2.2.2⟩

/-- C9: empty-score escalation default.  When the evaluation's
`solution_scores` map is missing or empty, `_find_best_solution`
returns the empty best solution with score `0.0`, and the stage takes
the escalation branch (escalation_decision=true, selected_solution
unset) rather than failing. -/
theorem c9_empty_scores_escalation_default
    (sd : ServerData) (m : StateManager) (sid : String) (now : Nat)
    (st : PyState) (ev d conf ss : PyVal)
    (hcur : m.get_current_state sid = .ok st)
    (hsol : (st.getPy "retrieved_solutions" .none).truthy = true)
    (hk1 : st.hasKey "escalation_decision" = true)
    (hk2 : st.hasKey "selected_solution" = true)
    (hev : Decide.evaluate_solutions sd st sid = .ok ev)
    (hss : ev.getE "solution_scores" (.dict []) = .ok ss)
    (hsst : ss.truthy = false)
    (hconf : ev.getE "confidence" (.flt "0.5") = .ok conf)
    (hmake : Decide.make_escalation_decision sd st ev (.flt "0.0") sid = .ok d) :
    Decide.find_best_solution ev = .ok (.dict [], .flt "0.0") ∧
    Decide.abilitiesOf sd st sid now
      = ["solution_evaluation", "escalation_decision", "update_payload"] ∧
    (Decide.execute sd m sid now).1 = .ok (okState (Decide.execute sd m sid now)) ∧
    (okState (Decide.execute sd m sid now)).lookup "escalation_decision"
      = some (.py (.bool true)) ∧
    (okState (Decide.execute sd m sid now)).lookup "selected_solution"
      = some (.py .none) := by
  obtain ⟨hist, hh, hl⟩ := StateManager.get_current_state_ok.mp hcur
  have hbest : Decide.find_best_solution ev = .ok (.dict [], .flt "0.0") := by
    simp [Decide.find_best_solution, hss, hsst, except_bind_ok]
  have hbody : Decide.decide_body sd st sid now =
      .ok ([ ("solution_scores", ev),
             ("escalation_decision", .bool true),
             ("escalation_details", d),
             ("selected_solution", .none),
             ("decision_reasoning",
               .str ("Escalated due to low solution score ("
                 ++ (PyVal.flt "0.0").pystr ++ ")")),
             ("decision_timestamp", .str (toString now)),
             ("decision_confidence", conf) ],
           ["solution_evaluation", "escalation_decision", "update_payload"]) := by
    simp [Decide.decide_body, hev, hbest, hconf, hmake, scoreVal,
      Decide.escalation_threshold]
  refine ⟨hbest, ?_, ?_, ?_, ?_⟩
  · simp [Decide.abilitiesOf, hbody]
  · exact Decide.executed_ok sd m sid now st hist _ _ hh hl hsol hbody
  · exact Decide.executed_field sd m sid now st hist _ _ _ _ hh hl hsol hbody
      hk1 (by rfl) (by decide) (by decide)
  · exact Decide.executed_field sd m sid now st hist _ _ _ _ hh hl hsol hbody
      hk2 (by rfl) (by decide) (by decide)

/-- Witness for C9 at an evaluation whose `solution_scores` map is
empty. -/
theorem c9_empty_scores_escalation_default_witness :
    Decide.find_best_solution Scenario.evEmpty = .ok (.dict [], .flt "0.0") ∧
    Decide.abilitiesOf (Scenario.sdOf Scenario.evEmpty) Scenario.stDecide "session-0" 2
      = ["solution_evaluation", "escalation_decision", "update_payload"] ∧
    (okState (Decide.execute (Scenario.sdOf Scenario.evEmpty) Scenario.mDecide
        "session-0" 2)).lookup "escalation_decision" = some (.py (.bool true)) ∧
    (okState (Decide.execute (Scenario.sdOf Scenario.evEmpty) Scenario.mDecide
        "session-0" 2)).lookup "selected_solution" = some (.py .none) :=
  have h := c9_empty_scores_escalation_default (Scenario.sdOf Scenario.evEmpty)
    Scenario.mDecide "session-0" 2 Scenario.stDecide Scenario.evEmpty
    (.dict [("message", .str "ok")]) (.flt "0.5") (.dict [])
    rfl rfl rfl rfl rfl rfl rfl rfl rfl
  ⟨h.1, h.2.1, h.2.2.2.1, h.2.2.2.2⟩

/-- C1: the UPDATE close rule is dead on the program's own states.
DECIDE builds `selected_solution` as `{"solution_id": ..., "score":
..., "details": ...}` (no `"id"` key) and stores the whole evaluation
dict under `solution_scores` (per-id records nested one level down),
while `_should_close_ticket` reads `selected_solution.get("id")` and
looks that id up in a flat `solution_scores` map.  So after a genuine
auto-resolving DECIDE run whose selected solution has recorded
`overall_score` 92 >= 85 and `escalation_decision=false`,
`_should_close_ticket` returns `False`, `close_ticket` is never
invoked, and `ticket_status` stays at `update_ticket`'s reported
`"In Progress"` instead of becoming `"closed"`. -/
theorem c1_update_close_rule_broken_on_decide_states :
    let rDec : (Except String PyState) × StateManager :=
      Decide.execute (Scenario.sdOf Scenario.evAuto) Scenario.mDecide
        "session-0" 2
    let stD := okState rDec
    let rUpd := Update.execute Scenario.sdTicket rDec.2 "session-0" 3
    rDec.1 = .ok stD ∧
    stD.lookup "escalation_decision" = some (.py (.bool false)) ∧
    stD.lookup "selected_solution" = some (.py (.dict
      [("solution_id", .str "SOL-D"), ("score", .int 92),
       ("details", .dict [("overall_score", .int 92)])])) ∧
    stD.lookup "solution_scores" = some (.py Scenario.evAuto) ∧
    ((stD.getPy "solution_scores" .none).getD "solution_scores" (.dict [])).getD
      "SOL-D" (.dict []) = .dict [("overall_score", .int 92)] ∧
    Update.should_close_ticket stD = .ok false ∧
    Update.abilitiesOf Scenario.sdTicket stD "session-0" = ["update_ticket"] ∧
    rUpd.1 = .ok (okState rUpd) ∧
    (okState rUpd).lookup "ticket_status" = some (.py (.str "In Progress")) :=
  ⟨rfl, rfl, rfl, rfl, rfl, rfl, rfl, rfl, rfl⟩

/-- C2: the INTAKE failure contract is broken in code.  On a payload
missing `email`, `_validate_payload` does list the violation, but
`execute`'s own `except` block catches the raised `ValueError`, creates
a diagnostic session (with fallback email `unknown@example.com`), logs
a FAILED entry and returns `None` instead of re-raising — the caller
sees no exception and a session has been created. -/
theorem c2_intake_swallows_validation_failure :
    let payload : PyVal := .dict
      [("customer_name", .str "Jane Doe"), ("query", .str "payment failed")]
    let r := Intake.execute (StateManager.mk [] [] [] 0) payload 0
    Intake.validate_payload payload = ["Missing required field: email"] ∧
    r.1 = Option.none ∧
    (r.2.get_state_history "session-0").length = 1 ∧
    (r.2.get_state_history "session-0").head?.map (fun st => r.2.viewErrors st)
      = some ["INTAKE: Payload validation failed: Missing required field: email"] ∧
    (r.2.get_state_history "session-0").head?.map
      (fun st => (r.2.viewLog st).map (fun e => (e.stage_name, e.status, e.error_message)))
      = some [("INTAKE", StageStatus.FAILED,
          some "Payload validation failed: Missing required field: email")] ∧
    (r.2.get_state_history "session-0").head?.map (fun st => st.getPy "email" .none)
      = some (.str "unknown@example.com") :=
  ⟨rfl, rfl, rfl, rfl, rfl, rfl⟩

/-- C4: the WAIT pause marker is broken in code.  With
`clarification_needed` true and no answer payload, the stage does log
an `in_progress` entry, return without completing and leave
`customer_responses` unset, and a later call with an answer payload
does complete with status `completed` and set `customer_responses` —
but `waiting_for_response` and `response_completeness` are not
`AgentState` keys, so `update_state` discards them as unknown keys
(recording diagnostics in `errors`); no waiting flag is ever set and
`is_waiting_for_response` reads `False` even while waiting. -/
theorem c4_wait_waiting_marker_dropped :
    let sd : ServerData := fun _ ability _ _ =>
      if ability == "extract_answer" then
        .dict [("extracted_info", .dict [("account_id", .str "ACC-12345")]),
               ("completeness", .flt "0.85")]
      else .dict [("message", .str "ok")]
    let m2 := (((StateManager.mk [] [] [] 0).create_initial_state (.str "J")
      (.str "j@x") (.str "q") (.str "medium") .none 0).2).applyUpdateSeq "session-0"
      [([("clarification_needed", .bool true),
         ("questions_asked", .list [.str "Q1"])], "ASK", 1)]
    let r1 := Wait.execute sd m2 "session-0" .none 2
    let r2 := Wait.execute sd r1.2 "session-0" (.dict [("q1", .str "ACC")]) 3
    r1.1 = .ok (okState r1) ∧
    (okState r1).lookup "customer_responses" = some (.py .none) ∧
    (okState r1).hasKey "waiting_for_response" = false ∧
    r1.2.viewErrors (okState r1) =
      ["Unknown state key: waiting_for_response from stage WAIT",
       "Unknown state key: questions_sent_at from stage WAIT"] ∧
    (r1.2.viewLog (okState r1)).map (fun e => (e.stage_name, e.status))
      = [("WAIT", StageStatus.IN_PROGRESS)] ∧
    Wait.is_waiting_for_response r1.2 "session-0" = false ∧
    r2.1 = .ok (okState r2) ∧
    (okState r2).lookup "customer_responses"
      = some (.py (.dict [("extracted_info", .dict [("account_id", .str "ACC-12345")]),
                          ("completeness", .flt "0.85")])) ∧
    (okState r2).hasKey "response_completeness" = false ∧
    (r2.2.viewLog (okState r2)).map (fun e => (e.stage_name, e.status, e.abilities_executed))
      = [("WAIT", StageStatus.IN_PROGRESS, []),
         ("WAIT", StageStatus.COMPLETED, ["extract_answer", "store_answer"])] ∧
    r2.2.viewErrors (okState r2) =
      ["Unknown state key: waiting_for_response from stage WAIT",
       "Unknown state key: questions_sent_at from stage WAIT",
       "Unknown state key: waiting_for_response from stage WAIT",
       "Unknown state key: responses_received_at from stage WAIT",
       "Unknown state key: response_completeness from stage WAIT"] :=
  ⟨rfl, rfl, rfl, rfl, rfl, rfl, rfl, rfl, rfl, rfl, rfl⟩

/-- C10: for a session id absent from the store, `get_state_history`
returns `[]` without raising, while `get_current_state`, `update_state`
and `log_stage_execution` each raise the session-not-found error. -/
theorem c10_unknown_session_asymmetry (m : StateManager) (sid : String)
    (updates : List (String × PyVal)) (sn : String) (t : Nat)
    (stid : Nat) (stn : String) (status : StageStatus) (abs : List String)
    (su : Option String) (dur : Option Int) (em : Option String) (out : Option PyVal)
    (h : StateManager.histLookup sid m.histories = Option.none) :
    m.get_state_history sid = [] ∧
    m.get_current_state sid = .error ("Session ID " ++ sid ++ " not found") ∧
    m.update_state sid updates sn t = .error ("Session ID " ++ sid ++ " not found") ∧
    m.log_stage_execution sid stid stn status abs su dur em out t
      = .error ("Session ID " ++ sid ++ " not found") := by
  refine ⟨?_, ?_, ?_, ?_⟩ <;>
    simp [StateManager.get_state_history, StateManager.get_current_state,
      StateManager.update_state, StateManager.log_stage_execution, h]

/-- Witness for C10 on the empty store and session id `"nope"`. -/
theorem c10_unknown_session_asymmetry_witness :
    StateManager.histLookup "nope" (StateManager.mk [] [] [] 0).histories = Option.none ∧
    ((StateManager.mk [] [] [] 0).get_state_history "nope" = [] ∧
     (StateManager.mk [] [] [] 0).get_current_state "nope"
       = .error ("Session ID " ++ "nope" ++ " not found") ∧
     (StateManager.mk [] [] [] 0).update_state "nope" [] "X" 0
       = .error ("Session ID " ++ "nope" ++ " not found") ∧
     (StateManager.mk [] [] [] 0).log_stage_execution "nope" 1 "X" .FAILED []
       Option.none Option.none Option.none Option.none 0
       = .error ("Session ID " ++ "nope" ++ " not found")) :=
  ⟨rfl, c10_unknown_session_asymmetry (StateManager.mk [] [] [] 0) "nope" [] "X" 0
    1 "X" .FAILED [] Option.none Option.none Option.none Option.none rfl⟩

end Support
